import Mathlib

/-!
A verification development for the core of a SNES (65C816) emulator written
in Rust, against its natural-language specification.

Shallow-embedding conventions, used consistently below:

* Machine integers (`u8`, `u16`, `u32`) are modelled as `Nat`.  Where the
  Rust source wraps explicitly (`wrapping_add`, `wrapping_sub`, `+=` on a
  bounded type whose wrap-around is reachable) the embedding takes the
  result modulo `2^w`.  Where a Rust `+` cannot overflow for the value
  ranges that actually reach it, a plain `Nat` addition is used.
  A Rust subtraction that cannot underflow at its call sites is `Nat`
  truncated subtraction.
* `Vec<u8>` fields are `List Nat`; Rust indexing (which panics when out of
  bounds) is `vecIndex` / `vecSet`, with the panic made explicit as the
  error value `MemError.panicked`.
* Fallible Rust functions returning `Result` become `Except MemError _`.
  The `eyre` string errors of the source are mapped to the typed error
  taxonomy of the specification (section 7): `unknownRegister`,
  `badAddress`, `writeToReadOnly`, `outOfRomBounds`, `unknownOpcode`;
  Rust `todo!()` / `unimplemented!()` / slice-index panics are
  `MemError.panicked`.
* State mutation through `&mut Console` becomes explicit state passing:
  mutating functions return `Except MemError Console` (or a pair with a
  result), and an error result leaves the caller with the unchanged
  original state, exactly as a Rust early `return Err(..)` does.
-/

set_option maxHeartbeats 2000000
set_option maxRecDepth 4000

namespace Snes

/-- Typed error taxonomy of the specification (section 7), plus `panicked`
for the places where the Rust source would panic (`todo!()`,
`unimplemented!()`, out-of-bounds `Vec` indexing, `Option::unwrap`). -/
inductive MemError where
  | unknownRegister
  | badAddress
  | writeToReadOnly
  | outOfRomBounds
  | dmaOutOfRange
  | wordWriteToByteRegister
  | unknownOpcode
  | panicked
deriving Repr, DecidableEq

/-- Rust `Vec` read indexing `v[i]`: the element, or a panic when out of
bounds. -/
def vecIndex (v : List Nat) (i : Nat) : Except MemError Nat :=
  if h : i < v.length then .ok (v.get ⟨i, h⟩) else .error .panicked

/-- Rust `Vec` element assignment `v[i] = x`: the updated vector, or a
panic when out of bounds. -/
def vecSet (v : List Nat) (i x : Nat) : Except MemError (List Nat) :=
  if i < v.length then .ok (v.set i x) else .error .panicked

/-- cartridge.rs: `MapMode`. -/
inductive MapMode where
  | LoROM
  | HiROM
  | ExHiROM
deriving Repr, DecidableEq

/-- cartridge.rs: `InterruptVectorTable` (each vector a `u16`). -/
structure InterruptVectorTable where
  cop : Nat
  brk : Nat
  abort : Nat
  nmi : Nat
  irq : Nat
  cop_emu : Nat
  brk_emu : Nat
  abort_emu : Nat
  nmi_emu : Nat
  reset : Nat
  irq_emu : Nat
deriving Repr, DecidableEq

/-- cartridge.rs: `RomHeader`.  Only the fields that the embedded core
functions ever read are carried (`map_mode`, `rom_size`,
`interrupt_vectors`); the remaining header metadata (title, speed,
hardware, ram size, country, developer id, version, checksums, expanded
header) is never consulted by the memory gateway, the CPU or the
disassembler. -/
structure RomHeader where
  map_mode : MapMode
  rom_size : Nat
  interrupt_vectors : InterruptVectorTable
deriving Repr, DecidableEq

/-- cartridge.rs: `Cartridge`: parsed header plus the ROM image bytes. -/
structure Cartridge where
  header : RomHeader
  rom_data : List Nat
deriving Repr, DecidableEq

/-- registers.rs: `MMIORegisters` (the latches written by
`memory::write_byte`; each is a `u8`). -/
structure MMIORegisters where
  NMITIMEN : Nat := 0
  WRMPYA : Nat := 0
  WRMPYB : Nat := 0
  WRDIVL : Nat := 0
  WRDIVH : Nat := 0
  WRDIVB : Nat := 0
  HTIMEL : Nat := 0
  HTIMEH : Nat := 0
  VTIMEL : Nat := 0
  VTIMEH : Nat := 0
  MEMSEL : Nat := 0
deriving Repr, DecidableEq

/-- registers.rs: `DMARegisters` (per-channel `Vec<u8>` of length 8). -/
structure DMARegisters where
  MDMAEN : Nat := 0
  HDMAEN : Nat := 0
  DMAPn : List Nat := List.replicate 8 0
  BBADn : List Nat := List.replicate 8 0
  A1TnL : List Nat := List.replicate 8 0
  A1TnH : List Nat := List.replicate 8 0
  A1nB : List Nat := List.replicate 8 0
  DASnL : List Nat := List.replicate 8 0
  DASnH : List Nat := List.replicate 8 0
  DASBn : List Nat := List.replicate 8 0
  A2TnL : List Nat := List.replicate 8 0
  A2TnH : List Nat := List.replicate 8 0
  NLTRn : List Nat := List.replicate 8 0
  UNUSEDn : List Nat := List.replicate 8 0
deriving Repr, DecidableEq

/-- cpu.rs: `Flags`. -/
structure Flags where
  n : Bool
  v : Bool
  m : Bool
  x : Bool
  d : Bool
  i : Bool
  z : Bool
  c : Bool
  e : Bool
  b : Bool
deriving Repr, DecidableEq

/-- cpu.rs: `Flags::new()`. -/
def Flags.new : Flags :=
  { n := false, v := false, m := false, x := false, d := false,
    i := false, z := false, c := false, e := true, b := false }

/-- cpu.rs: `CPU` (`A`/`X`/`Y`/`S`/`D`/`PC` are `u16`, `DBR`/`K` are
`u8`). -/
structure CPU where
  A : Nat
  X : Nat
  Y : Nat
  S : Nat
  DBR : Nat
  D : Nat
  K : Nat
  P : Flags
  PC : Nat
deriving Repr, DecidableEq

/-- cpu.rs: `CPU::new()`. -/
def CPU.new : CPU :=
  { A := 0, X := 0, Y := 0, S := 0, DBR := 0, D := 0, K := 0,
    P := Flags.new, PC := 0 }

/-- cpu.rs: `CPU::p_byte`. -/
def CPU.p_byte (cpu : CPU) : Nat :=
  (if cpu.P.n then 1 else 0) <<< 7 |||
  (if cpu.P.v then 1 else 0) <<< 6 |||
  (if cpu.P.m then 1 else 0) <<< 5 |||
  (if cpu.P.x ∧ ¬ cpu.P.e then 1 else 0) <<< 4 |||
  (if cpu.P.d then 1 else 0) <<< 3 |||
  (if cpu.P.i then 1 else 0) <<< 2 |||
  (if cpu.P.z then 1 else 0) <<< 1 |||
  (if cpu.P.c then 1 else 0)

/-- cpu.rs: `CPU::set_p`: unpack a pushed `P` byte; when `E = 1` the `X`
flag is forced back to 1 (note: `M` is not forced). -/
def CPU.set_p (cpu : CPU) (p : Nat) : CPU :=
  let P' : Flags :=
    { cpu.P with
      c := p &&& 0b00000001 ≠ 0
      z := p &&& 0b00000010 ≠ 0
      i := p &&& 0b00000100 ≠ 0
      d := p &&& 0b00001000 ≠ 0
      x := p &&& 0b00010000 ≠ 0
      m := p &&& 0b00100000 ≠ 0
      v := p &&& 0b01000000 ≠ 0
      n := p &&& 0b10000000 ≠ 0 }
  let P'' := if cpu.P.e then { P' with x := true } else P'
  { cpu with P := P'' }

/-- cpu.rs: `CPU::get_pc`: the 24-bit logical program counter
`K<<16 | PC`. -/
def CPU.get_pc (cpu : CPU) : Nat :=
  cpu.PC ||| (cpu.K <<< 16)

/-- cpu.rs: `CPU::set_pc`: `PC = addr & 0xFFFF`, `K` = byte 1 of the
big-endian `u32` (that is, `(addr >> 16) & 0xFF`). -/
def CPU.set_pc (cpu : CPU) (addr : Nat) : CPU :=
  { cpu with PC := addr &&& 0xFFFF, K := (addr >>> 16) &&& 0xFF }

/-- main.rs: `Console`: the machine aggregate owning CPU, cartridge, the
work RAM vector and the MMIO/DMA latches. -/
structure Console where
  cpu : CPU
  cartridge : Cartridge
  ram : List Nat
  mmio : MMIORegisters
  dma : DMARegisters
deriving Repr, DecidableEq

/-! ## memory.rs -/

/-- memory.rs: `peek_ram_byte` (the `ensure` on `addr & 0x200000` is kept
verbatim even though it can never fail). -/
def peek_ram_byte (ram : List Nat) (addr : Nat) : Except MemError Nat :=
  let ram_addr := addr &&& 0x200000
  if ram_addr ≤ 0x200000 then
    vecIndex ram (addr &&& 0x1FFFF)
  else .error .badAddress

/-- memory.rs: `peek_ram_word`: little-endian pair at
`ram[addr & 0x1FFFF]`, `ram[(addr & 0x1FFFF) + 1]`.  The `u16` sum
`lo + (hi << 8)` cannot overflow for byte-valued elements. -/
def peek_ram_word (ram : List Nat) (addr : Nat) : Except MemError Nat :=
  let ram_addr := addr &&& 0x200000
  if ram_addr ≤ 0x200000 then do
    let lo ← vecIndex ram (addr &&& 0x1FFFF)
    let hi ← vecIndex ram ((addr &&& 0x1FFFF) + 1)
    .ok (lo + (hi <<< 8))
  else .error .badAddress

/-- memory.rs: `read_ram_byte` (identical to `peek_ram_byte` except for
logging). -/
def read_ram_byte (ram : List Nat) (addr : Nat) : Except MemError Nat :=
  let ram_addr := addr &&& 0x200000
  if ram_addr ≤ 0x200000 then
    vecIndex ram (addr &&& 0x1FFFF)
  else .error .badAddress

/-- memory.rs: `read_ram_word` (identical to `peek_ram_word` except for
logging). -/
def read_ram_word (ram : List Nat) (addr : Nat) : Except MemError Nat :=
  let ram_addr := addr &&& 0x200000
  if ram_addr ≤ 0x200000 then do
    let lo ← vecIndex ram (addr &&& 0x1FFFF)
    let hi ← vecIndex ram ((addr &&& 0x1FFFF) + 1)
    .ok (lo + (hi <<< 8))
  else .error .badAddress

/-- memory.rs: `peek_rom_byte`.  In the `LoROM` arm the Rust `u32`
subtraction `tempaddr - (page + 1) * 0x8000` cannot underflow for
ROM-routed addresses, so `Nat` subtraction is used. -/
def peek_rom_byte (rom : Cartridge) (addr : Nat) : Except MemError Nat :=
  match rom.header.map_mode with
  | .LoROM =>
    let page0 := (addr &&& 0xFF0000) >>> 16
    let page := if page0 ≥ 0x80 then page0 - 0x80 else page0
    let tempaddr := if addr ≥ 0x800000 then addr - 0x800000 else addr
    let rom_addr := tempaddr - (page + 1) * 0x8000
    if rom_addr < rom.header.rom_size then
      vecIndex rom.rom_data rom_addr
    else .error .outOfRomBounds
  | .HiROM =>
    let rom_addr := addr &&& 0x3FFFFF
    if rom_addr < rom.header.rom_size then
      vecIndex rom.rom_data rom_addr
    else .error .outOfRomBounds
  | .ExHiROM =>
    let rom_addr := (addr &&& 0x3FFFFF) + (((addr &&& 0x800000) ^^^ 0x800000) >>> 1)
    if rom_addr < rom.header.rom_size then
      vecIndex rom.rom_data rom_addr
    else .error .outOfRomBounds

/-- memory.rs: `read_rom_byte`: as `peek_rom_byte`, but the `LoROM` arm
carries a second `ensure` against the actual ROM vector length. -/
def read_rom_byte (rom : Cartridge) (addr : Nat) : Except MemError Nat :=
  match rom.header.map_mode with
  | .LoROM =>
    let page0 := (addr &&& 0xFF0000) >>> 16
    let page := if page0 ≥ 0x80 then page0 - 0x80 else page0
    let tempaddr := if addr ≥ 0x800000 then addr - 0x800000 else addr
    let rom_addr := tempaddr - (page + 1) * 0x8000
    if rom_addr < rom.header.rom_size then
      if rom_addr < rom.rom_data.length then
        vecIndex rom.rom_data rom_addr
      else .error .outOfRomBounds
    else .error .outOfRomBounds
  | .HiROM =>
    let rom_addr := addr &&& 0x3FFFFF
    if rom_addr < rom.header.rom_size then
      vecIndex rom.rom_data rom_addr
    else .error .outOfRomBounds
  | .ExHiROM =>
    let rom_addr := (addr &&& 0x3FFFFF) + (((addr &&& 0x800000) ^^^ 0x800000) >>> 1)
    if rom_addr < rom.header.rom_size then
      vecIndex rom.rom_data rom_addr
    else .error .outOfRomBounds

/-- memory.rs: `peek_rom_word`: little-endian OR of two consecutive ROM
bytes, after the single `rom_size` bound check. -/
def peek_rom_word (rom : Cartridge) (addr : Nat) : Except MemError Nat :=
  match rom.header.map_mode with
  | .LoROM =>
    let page0 := (addr &&& 0xFF0000) >>> 16
    let page := if page0 ≥ 0x80 then page0 - 0x80 else page0
    let tempaddr := if addr ≥ 0x800000 then addr - 0x800000 else addr
    let rom_addr := tempaddr - (page + 1) * 0x8000
    if rom_addr < rom.header.rom_size then do
      let lo ← vecIndex rom.rom_data rom_addr
      let hi ← vecIndex rom.rom_data (rom_addr + 1)
      .ok (lo ||| (hi <<< 8))
    else .error .outOfRomBounds
  | .HiROM =>
    let rom_addr := addr &&& 0x3FFFFF
    if rom_addr < rom.header.rom_size then do
      let lo ← vecIndex rom.rom_data rom_addr
      let hi ← vecIndex rom.rom_data (rom_addr + 1)
      .ok (lo ||| (hi <<< 8))
    else .error .outOfRomBounds
  | .ExHiROM =>
    let rom_addr := (addr &&& 0x3FFFFF) + (((addr &&& 0x800000) ^^^ 0x800000) >>> 1)
    if rom_addr < rom.header.rom_size then do
      let lo ← vecIndex rom.rom_data rom_addr
      let hi ← vecIndex rom.rom_data (rom_addr + 1)
      .ok (lo ||| (hi <<< 8))
    else .error .outOfRomBounds

/-- memory.rs: `read_rom_word` (identical to `peek_rom_word` except for
logging; unlike the byte version it has no extra length check). -/
def read_rom_word (rom : Cartridge) (addr : Nat) : Except MemError Nat :=
  match rom.header.map_mode with
  | .LoROM =>
    let page0 := (addr &&& 0xFF0000) >>> 16
    let page := if page0 ≥ 0x80 then page0 - 0x80 else page0
    let tempaddr := if addr ≥ 0x800000 then addr - 0x800000 else addr
    let rom_addr := tempaddr - (page + 1) * 0x8000
    if rom_addr < rom.header.rom_size then do
      let lo ← vecIndex rom.rom_data rom_addr
      let hi ← vecIndex rom.rom_data (rom_addr + 1)
      .ok (lo ||| (hi <<< 8))
    else .error .outOfRomBounds
  | .HiROM =>
    let rom_addr := addr &&& 0x3FFFFF
    if rom_addr < rom.header.rom_size then do
      let lo ← vecIndex rom.rom_data rom_addr
      let hi ← vecIndex rom.rom_data (rom_addr + 1)
      .ok (lo ||| (hi <<< 8))
    else .error .outOfRomBounds
  | .ExHiROM =>
    let rom_addr := (addr &&& 0x3FFFFF) + (((addr &&& 0x800000) ^^^ 0x800000) >>> 1)
    if rom_addr < rom.header.rom_size then do
      let lo ← vecIndex rom.rom_data rom_addr
      let hi ← vecIndex rom.rom_data (rom_addr + 1)
      .ok (lo ||| (hi <<< 8))
    else .error .outOfRomBounds

/-- memory.rs: `read_word`: the whole word read is dispatched once, on the
base address.  The MMIO window match has no `Ok` arm here. -/
def read_word (snes : Console) (addr : Nat) : Except MemError Nat :=
  let bank := (addr &&& 0xFF0000) >>> 16
  let addr_word := addr &&& 0xFFFF
  if (bank < 0x40 ∨ (0x80 ≤ bank ∧ bank < 0xC0)) ∧
      (0x4200 ≤ addr_word ∧ addr_word < 0x4220) then
    .error .unknownRegister
  else if (0x8000 ≤ addr_word ∧ (bank < 0x40 ∨ 0x80 ≤ bank)) ∨
      0xC0 ≤ bank ∨ (0x40 ≤ bank ∧ bank < 0x7E) then
    read_rom_word snes.cartridge addr
  else if (0x7E ≤ bank ∧ bank < 0x80) ∨
      ((bank < 0x40 ∨ (0x80 ≤ bank ∧ bank < 0xC0)) ∧ addr_word < 0x2000) then
    read_ram_word snes.ram addr
  else .error .badAddress

/-- memory.rs: `peek_word` (textually the same dispatch and region
readers as `read_word`). -/
def peek_word (snes : Console) (addr : Nat) : Except MemError Nat :=
  let bank := (addr &&& 0xFF0000) >>> 16
  let addr_word := addr &&& 0xFFFF
  if (bank < 0x40 ∨ (0x80 ≤ bank ∧ bank < 0xC0)) ∧
      (0x4200 ≤ addr_word ∧ addr_word < 0x4220) then
    .error .unknownRegister
  else if (0x8000 ≤ addr_word ∧ (bank < 0x40 ∨ 0x80 ≤ bank)) ∨
      0xC0 ≤ bank ∨ (0x40 ≤ bank ∧ bank < 0x7E) then
    peek_rom_word snes.cartridge addr
  else if (0x7E ≤ bank ∧ bank < 0x80) ∨
      ((bank < 0x40 ∨ (0x80 ≤ bank ∧ bank < 0xC0)) ∧ addr_word < 0x2000) then
    peek_ram_word snes.ram addr
  else .error .badAddress

/-- memory.rs: `read_byte`: unlike `peek_byte`, the MMIO window returns
data for `$4210..$421F` (`HBVJOY` at `$4212` reads `0x00` or `0xFF`
depending on the `N` flag). -/
def read_byte (snes : Console) (addr : Nat) : Except MemError Nat :=
  let bank := (addr &&& 0xFF0000) >>> 16
  let addr_word := addr &&& 0xFFFF
  if bank % 0x80 < 0x40 ∧ (0x4200 ≤ addr_word ∧ addr_word < 0x4220) then
    if addr_word = 0x4210 then .ok 0x00
    else if addr_word = 0x4211 then .ok 0x00
    else if addr_word = 0x4212 then
      (if snes.cpu.P.n then .ok 0x00 else .ok 0xFF)
    else if addr_word = 0x4213 then .ok 0x00
    else if addr_word = 0x4214 then .ok 0x00
    else if addr_word = 0x4215 then .ok 0x00
    else if addr_word = 0x4216 then .ok 0x00
    else if addr_word = 0x4217 then .ok 0x00
    else if 0x4218 ≤ addr_word ∧ addr_word ≤ 0x421F then .ok 0x00
    else .error .unknownRegister
  else if (0x8000 ≤ addr_word ∧ (bank < 0x40 ∨ 0x80 ≤ bank)) ∨
      0xC0 ≤ bank ∨ (0x40 ≤ bank ∧ bank < 0x7E) then
    read_rom_byte snes.cartridge addr
  else if (0x7E ≤ bank ∧ bank < 0x80) ∨ (bank % 0x80 < 0x40 ∧ addr_word < 0x2000) then
    read_ram_byte snes.ram addr
  else .error .badAddress

/-- memory.rs: `peek_byte`: the MMIO window always fails here (no
modelled readable register), and the `LoROM` ROM reader has no length
check against the ROM vector. -/
def peek_byte (snes : Console) (addr : Nat) : Except MemError Nat :=
  let bank := (addr &&& 0xFF0000) >>> 16
  let addr_word := addr &&& 0xFFFF
  if (bank < 0x40 ∨ (0x80 ≤ bank ∧ bank < 0xC0)) ∧
      (0x4200 ≤ addr_word ∧ addr_word < 0x4220) then
    .error .unknownRegister
  else if (0x8000 ≤ addr_word ∧ (bank < 0x40 ∨ 0x80 ≤ bank)) ∨
      0xC0 ≤ bank ∨ (0x40 ≤ bank ∧ bank < 0x7E) then
    peek_rom_byte snes.cartridge addr
  else if (0x7E ≤ bank ∧ bank < 0x80) ∨
      ((bank < 0x40 ∨ (0x80 ≤ bank ∧ bank < 0xC0)) ∧ addr_word < 0x2000) then
    peek_ram_byte snes.ram addr
  else .error .badAddress

/-- memory.rs: `write_ram_byte`. -/
def write_ram_byte (ram : List Nat) (addr val : Nat) : Except MemError (List Nat) :=
  let ram_addr := addr &&& 0x200000
  if ram_addr ≤ 0x200000 then
    vecSet ram (addr &&& 0x1FFFF) val
  else .error .badAddress

/-- memory.rs: `write_ram_word`: low byte at `addr & 0x1FFFF`, high byte
at the next index. -/
def write_ram_word (ram : List Nat) (addr val : Nat) : Except MemError (List Nat) :=
  let ram_addr := addr &&& 0x200000
  if ram_addr ≤ 0x200000 then do
    let r1 ← vecSet ram (addr &&& 0x1FFFF) (val &&& 0xFF)
    vecSet r1 ((addr &&& 0x1FFFF) + 1) ((val &&& 0xFF00) >>> 8)
  else .error .badAddress

/-- memory.rs: `write_register_byte`: the PPU/APU window accepts the
write and records nothing (byte 1 of the big-endian demirrored address
must stay below `0x40`). -/
def write_register_byte (snes : Console) (addr : Nat) (_val : Nat) :
    Except MemError Console :=
  let addr_demirror := addr % 0x800000
  let addr_word := addr_demirror &&& 0xFFFF
  if (addr_demirror >>> 16) &&& 0xFF < 0x40 ∧ 0x2000 ≤ addr_word ∧ addr_word < 0x8000 then
    .ok snes
  else .error .badAddress

/-- memory.rs: `write_byte`: MMIO latches, DMA channel registers, the ROM
rejection arm, WRAM, then the PPU register window. -/
def write_byte (snes : Console) (addr data : Nat) : Except MemError Console :=
  let bank := (addr &&& 0xFF0000) >>> 16
  let addr_word := addr &&& 0xFFFF
  if (bank < 0x40 ∨ (0x80 ≤ bank ∧ bank < 0xC0)) ∧
      (0x4200 ≤ addr_word ∧ addr_word < 0x4220) then
    if addr_word = 0x4200 then
      .ok { snes with mmio := { snes.mmio with NMITIMEN := data } }
    else if addr_word = 0x4201 then
      .ok snes
    else if addr_word = 0x4202 then
      .ok { snes with mmio := { snes.mmio with WRMPYA := data } }
    else if addr_word = 0x4203 then
      .ok { snes with mmio := { snes.mmio with WRMPYB := data } }
    else if addr_word = 0x4204 then
      .ok { snes with mmio := { snes.mmio with WRDIVL := data } }
    else if addr_word = 0x4205 then
      .ok { snes with mmio := { snes.mmio with WRDIVH := data } }
    else if addr_word = 0x4206 then
      .ok { snes with mmio := { snes.mmio with WRDIVB := data } }
    else if addr_word = 0x4207 then
      .ok { snes with mmio := { snes.mmio with HTIMEL := data } }
    else if addr_word = 0x4208 then
      .ok { snes with mmio := { snes.mmio with HTIMEH := data } }
    else if addr_word = 0x4209 then
      .ok { snes with mmio := { snes.mmio with VTIMEL := data } }
    else if addr_word = 0x420A then
      .ok { snes with mmio := { snes.mmio with VTIMEH := data } }
    else if addr_word = 0x420B then
      .ok { snes with dma := { snes.dma with MDMAEN := data } }
    else if addr_word = 0x420C then
      .ok { snes with dma := { snes.dma with HDMAEN := data } }
    else if addr_word = 0x420D then
      .ok { snes with mmio := { snes.mmio with MEMSEL := data } }
    else .error .unknownRegister
  else if (bank < 0x40 ∨ (0x80 ≤ bank ∧ bank < 0xC0)) ∧
      (0x4300 ≤ addr_word ∧ addr_word < 0x4380) then
    let dma_no := (addr_word &&& 0x00F0) >>> 4
    if dma_no < 8 then
      let dma_reg := addr_word &&& 0x000F
      if dma_reg = 0x0 then do
        let l ← vecSet snes.dma.DMAPn dma_no data
        .ok { snes with dma := { snes.dma with DMAPn := l } }
      else if dma_reg = 0x1 then do
        let l ← vecSet snes.dma.BBADn dma_no data
        .ok { snes with dma := { snes.dma with BBADn := l } }
      else if dma_reg = 0x2 then do
        let l ← vecSet snes.dma.A1TnL dma_no data
        .ok { snes with dma := { snes.dma with A1TnL := l } }
      else if dma_reg = 0x3 then do
        let l ← vecSet snes.dma.A1TnH dma_no data
        .ok { snes with dma := { snes.dma with A1TnH := l } }
      else if dma_reg = 0x4 then do
        let l ← vecSet snes.dma.A1nB dma_no data
        .ok { snes with dma := { snes.dma with A1nB := l } }
      else if dma_reg = 0x5 then do
        let l ← vecSet snes.dma.DASnL dma_no data
        .ok { snes with dma := { snes.dma with DASnL := l } }
      else if dma_reg = 0x6 then do
        let l ← vecSet snes.dma.DASnH dma_no data
        .ok { snes with dma := { snes.dma with DASnH := l } }
      else if dma_reg = 0x7 then do
        let l ← vecSet snes.dma.DASBn dma_no data
        .ok { snes with dma := { snes.dma with DASBn := l } }
      else if dma_reg = 0x8 then do
        let l ← vecSet snes.dma.A2TnL dma_no data
        .ok { snes with dma := { snes.dma with A2TnL := l } }
      else if dma_reg = 0x9 then do
        let l ← vecSet snes.dma.A2TnH dma_no data
        .ok { snes with dma := { snes.dma with A2TnH := l } }
      else if dma_reg = 0xA then do
        let l ← vecSet snes.dma.NLTRn dma_no data
        .ok { snes with dma := { snes.dma with NLTRn := l } }
      else if dma_reg = 0xB ∨ dma_reg = 0xF then do
        let l ← vecSet snes.dma.UNUSEDn dma_no data
        .ok { snes with dma := { snes.dma with UNUSEDn := l } }
      else .error .unknownRegister
    else .error .dmaOutOfRange
  else if (0x8000 ≤ addr_word ∧ (bank < 0x40 ∨ 0x80 ≤ bank)) ∨
      0xC0 ≤ bank ∨ (0x40 ≤ bank ∧ bank < 0x7E) then
    .error .writeToReadOnly
  else if (0x7E ≤ bank ∧ bank < 0x80) ∨
      ((bank < 0x40 ∨ (0x80 ≤ bank ∧ bank < 0xC0)) ∧ addr_word < 0x2000) then do
    let r ← write_ram_byte snes.ram addr data
    .ok { snes with ram := r }
  else if bank % 0x80 < 0x40 ∧ 0x2000 ≤ addr_word ∧ addr_word < 0x8000 then
    write_register_byte snes addr data
  else .error .badAddress

/-- memory.rs: `write_word`: the MMIO window always fails; DMA channel
offsets 2/5/8 accept a word as a little-endian `_L`/`_H` byte pair; ROM
is rejected; WRAM takes the little-endian pair.  (There is no PPU window
arm for words.) -/
def write_word (snes : Console) (addr data : Nat) : Except MemError Console :=
  let bank := (addr &&& 0xFF0000) >>> 16
  let addr_word := addr &&& 0xFFFF
  if (bank < 0x40 ∨ (0x80 ≤ bank ∧ bank < 0xC0)) ∧
      (0x4200 ≤ addr_word ∧ addr_word < 0x4220) then
    .error .unknownRegister
  else if (bank < 0x40 ∨ (0x80 ≤ bank ∧ bank < 0xC0)) ∧
      (0x4300 ≤ addr_word ∧ addr_word < 0x4380) then
    let dma_no := (addr_word &&& 0x00F0) >>> 4
    if dma_no < 8 then
      let dma_reg := addr_word &&& 0x000F
      if dma_reg = 0x2 then do
        let lo ← vecSet snes.dma.A1TnL dma_no (data &&& 0x00FF)
        let hi ← vecSet snes.dma.A1TnH dma_no ((data &&& 0xFF00) >>> 8)
        .ok { snes with dma := { snes.dma with A1TnL := lo, A1TnH := hi } }
      else if dma_reg = 0x5 then do
        let lo ← vecSet snes.dma.DASnL dma_no (data &&& 0x00FF)
        let hi ← vecSet snes.dma.DASnH dma_no ((data &&& 0xFF00) >>> 8)
        .ok { snes with dma := { snes.dma with DASnL := lo, DASnH := hi } }
      else if dma_reg = 0x8 then do
        let lo ← vecSet snes.dma.A2TnL dma_no (data &&& 0x00FF)
        let hi ← vecSet snes.dma.A2TnH dma_no ((data &&& 0xFF00) >>> 8)
        .ok { snes with dma := { snes.dma with A2TnL := lo, A2TnH := hi } }
      else .error .wordWriteToByteRegister
    else .error .dmaOutOfRange
  else if (0x8000 ≤ addr_word ∧ (bank < 0x40 ∨ 0x80 ≤ bank)) ∨
      0xC0 ≤ bank ∨ (0x40 ≤ bank ∧ bank < 0x7E) then
    .error .writeToReadOnly
  else if (0x7E ≤ bank ∧ bank < 0x80) ∨
      ((bank < 0x40 ∨ (0x80 ≤ bank ∧ bank < 0xC0)) ∧ addr_word < 0x2000) then do
    let r ← write_ram_word snes.ram addr data
    .ok { snes with ram := r }
  else .error .badAddress

end Snes

namespace Snes

/-! ## cpu.rs: decode tables and the address resolver -/

/-- cpu.rs: `OpCode`: every 65C816 mnemonic. -/
inductive OpCode where
  | ADC | AND | ASL | BCC | BCS | BEQ | BIT | BMI | BNE | BPL | BRA | BRK
  | BRL | BVC | BVS | CLC | CLD | CLI | CLV | CMP | CPX | CPY | COP | DEC
  | DEX | DEY | EOR | INC | INX | INY | JMP | JML | JSR | JSL | LDA | LDX
  | LDY | LSR | MVN | MVP | NOP | ORA | PEA | PEI | PER | PHA | PHB | PHD
  | PHK | PHP | PHX | PHY | PLA | PLB | PLD | PLP | PLX | PLY | REP | ROL
  | ROR | RTI | RTS | RTL | SBC | SEC | SED | SEI | SEP | STA | STX | STY
  | STP | STZ | TAX | TAY | TCD | TCS | TDC | TSC | TSX | TXA | TXS | TXY
  | TYA | TYX | TRB | TSB | WAI | WDM | XBA | XCE
deriving Repr, DecidableEq, BEq

/-- cpu.rs: `OLD_OPCODES`: the 6502-era operations, used by the
emulation-mode direct-page wrap rule. -/
def OLD_OPCODES : List OpCode :=
  [.LDA, .LDX, .LDY, .STA, .STX, .STY, .STZ, .PHA, .PHX, .PHY, .PHP,
   .PLA, .PLX, .PLY, .PLP, .TSX, .TXS, .INX, .INY, .DEX, .DEY, .INC,
   .DEC, .ASL, .LSR, .ROL, .ROR, .AND, .ORA, .EOR, .BIT, .CMP, .CPX,
   .CPY, .TRB, .TSB, .ADC, .SBC, .JMP, .JSR, .RTS, .RTI, .BRA, .BEQ,
   .BNE, .BCC, .BCS, .BVC, .BVS, .BMI, .BPL, .CLC, .CLD, .CLI, .CLV,
   .SEC, .SED, .SEI, .TAX, .TAY, .TXA, .TYA, .NOP, .BRK, .PEI]

/-- cpu.rs: `OpCode::is_branch`. -/
def OpCode.is_branch (op : OpCode) : Bool :=
  match op with
  | .BRA | .BCC | .BCS | .BEQ | .BMI | .BNE | .BPL | .BVC | .BVS => true
  | _ => false

/-- cpu.rs: `OpCode::is_jump`. -/
def OpCode.is_jump (op : OpCode) : Bool :=
  match op with
  | .JMP | .JSR | .JML | .JSL => true
  | _ => false

/-- cpu.rs: `OpCode::is_interrupt`. -/
def OpCode.is_interrupt (op : OpCode) : Bool :=
  match op with
  | .BRK | .COP => true
  | _ => false

/-- cpu.rs: `OpCode::is_subroutine`. -/
def OpCode.is_subroutine (op : OpCode) : Bool :=
  match op with
  | .JML | .JSR => true
  | _ => false

/-- cpu.rs: `OpCode::is_return`. -/
def OpCode.is_return (op : OpCode) : Bool :=
  match op with
  | .RTS | .RTI | .RTL => true
  | _ => false

/-- cpu.rs: `OpCode::is_old`. -/
def OpCode.is_old (op : OpCode) : Bool :=
  OLD_OPCODES.contains op

/-- cpu.rs: `OpCode::uses_x`: index-register-class operations whose
immediate width follows the `X` flag. -/
def OpCode.uses_x (op : OpCode) : Bool :=
  match op with
  | .CPX | .CPY | .DEX | .DEY | .INX | .INY | .LDX | .LDY | .STX | .STY
  | .PHX | .PHY | .PLX | .PLY | .TAX | .TAY | .TSX | .TXS | .TXY | .TYX => true
  | _ => false

/-- cpu.rs: `OpCode::uses_m`: accumulator-class operations whose
immediate width follows the `M` flag. -/
def OpCode.uses_m (op : OpCode) : Bool :=
  match op with
  | .ADC | .SBC | .AND | .EOR | .ORA | .ASL | .LSR | .ROL | .ROR | .BIT
  | .CMP | .DEC | .INC | .LDA | .STA | .STZ | .PHA | .PLA | .TRB | .TSB
  | .TXA | .TYA => true
  | _ => false

/-- cpu.rs: `AddrMode`. -/
inductive AddrMode where
  | Absolute
  | AbsoluteWord
  | AbsoluteSWord
  | AbsoluteX
  | AbsoluteY
  | AbsoluteIndirectWord
  | AbsoluteIndirectSWord
  | AbsoluteIndexedIndirect
  | Accumulator
  | Direct
  | DirectX
  | DirectY
  | DirectWord
  | DirectSWord
  | IndexedDirectWord
  | DirectIndexedWord
  | DirectIndexedSWord
  | Immediate
  | Implied
  | Long
  | LongX
  | RelativeByte
  | RelativeWord
  | SourceDestination
  | Stack
  | StackIndexed
deriving Repr, DecidableEq, BEq

/-- cpu.rs: `InstructionContext`: the decoded form of one instruction. -/
structure InstructionContext where
  opcode : OpCode
  mode : AddrMode
  inst_addr : Nat
  data_addr : Nat
  dest_addr : Option Nat
deriving Repr, DecidableEq

/-- cpu.rs: `InstructionContext::length`: encoded length in bytes.
`REP`/`SEP` are fixed at 2 and `PEA`/`PER` at 3 before the mode is
consulted; an `Immediate` length follows `M` for accumulator-class and
`X` for index-class operations.  The `AbsoluteIndirectSWord` and
`AbsoluteIndexedIndirect` arms are `todo!()` in the source
(`panicked` here). -/
def InstructionContext.length (self : InstructionContext) (m x : Bool) :
    Except MemError Nat :=
  match self.opcode with
  | .REP | .SEP => .ok 2
  | .PEA | .PER => .ok 3
  | _ =>
    match self.mode with
    | .Absolute => .ok 3
    | .AbsoluteWord => .ok 3
    | .AbsoluteSWord => .ok 3
    | .AbsoluteX | .AbsoluteY => .ok 3
    | .AbsoluteIndirectWord => .ok 3
    | .AbsoluteIndirectSWord => .error .panicked
    | .AbsoluteIndexedIndirect => .error .panicked
    | .Accumulator => .ok 1
    | .Direct => .ok 2
    | .DirectX | .DirectY => .ok 2
    | .DirectWord => .ok 3
    | .DirectSWord => .ok 2
    | .IndexedDirectWord => .ok 2
    | .DirectIndexedWord => .ok 2
    | .DirectIndexedSWord => .ok 2
    | .Immediate =>
      if self.opcode.uses_m then .ok (3 - (if m then 1 else 0))
      else if self.opcode.uses_x then .ok (3 - (if x then 1 else 0))
      else .ok 3
    | .Implied => .ok 1
    | .Long => .ok 4
    | .LongX => .ok 4
    | .RelativeByte => .ok 2
    | .RelativeWord => .ok 3
    | .SourceDestination => .ok 3
    | .Stack => .ok 2
    | .StackIndexed => .ok 2

/-- cpu.rs: `CPUExecutionResult`. -/
inductive CPUExecutionResult where
  | Normal
  | BranchTaken
  | Jump
  | Subroutine (addr : Nat)
  | Return
  | Interrupt
deriving Repr, DecidableEq

/-- cpu.rs: `decode_addressing_mode`: the irregular-opcode prefix table,
then the regular `cc`/`bbb` decode with its error arms.  The final
catch-alls mirror the `unreachable!()` arms for the (impossible)
`cc`/`bbb` values outside `0..=3` / `0..=7`. -/
def decode_addressing_mode (opcode : Nat) : Except MemError AddrMode :=
  let bbb := (opcode &&& 0b00011100) >>> 2
  let cc := opcode &&& 0b00000011
  match opcode with
  | 0x00 | 0x08 | 0x0B | 0x18 | 0x1B | 0x28 | 0x2B | 0x38 | 0x3B | 0x40
  | 0x48 | 0x4B | 0x58 | 0x5A | 0x5B | 0x60 | 0x68 | 0x6B | 0x78 | 0x7A
  | 0x7B | 0x88 | 0x8A | 0x8B | 0x98 | 0x9A | 0x9B | 0xA8 | 0xAA | 0xAB
  | 0xB8 | 0xBA | 0xBB | 0xC8 | 0xCA | 0xCB | 0xD8 | 0xDA | 0xDB | 0xE8
  | 0xEA | 0xEB | 0xF8 | 0xFA | 0xFB => .ok .Implied
  | 0x0A | 0x1A | 0x2A | 0x3A | 0x4A | 0x6A => .ok .Accumulator
  | 0x14 | 0x64 | 0xD4 => .ok .Direct
  | 0x1C | 0x20 | 0x9C => .ok .Absolute
  | 0x22 | 0x5C => .ok .Long
  | 0x44 | 0x52 => .ok .SourceDestination
  | 0xDC => .ok .AbsoluteSWord
  | 0x6C => .ok .AbsoluteIndirectWord
  | 0x74 => .ok .DirectX
  | 0x7C | 0xFC => .ok .AbsoluteIndexedIndirect
  | 0x10 | 0x30 | 0x50 | 0x70 | 0x80 | 0x90 | 0xB0 | 0xD0 | 0xF0 => .ok .RelativeByte
  | 0x82 => .ok .RelativeWord
  | 0x02 | 0x42 | 0x62 | 0x89 | 0xC2 | 0xE2 | 0xF4 => .ok .Immediate
  | 0x9E => .ok .AbsoluteX
  | _ =>
    match cc with
    | 0b00 =>
      match bbb with
      | 0b000 => .ok .Immediate
      | 0b001 => .ok .Direct
      | 0b010 => .error .unknownOpcode
      | 0b011 => .ok .Absolute
      | 0b100 => .error .unknownOpcode
      | 0b101 => .ok .DirectX
      | 0b110 => .error .unknownOpcode
      | 0b111 => .ok .AbsoluteX
      | _ => .error .panicked
    | 0b01 =>
      match bbb with
      | 0b000 => .ok .IndexedDirectWord
      | 0b001 => .ok .Direct
      | 0b010 => .ok .Immediate
      | 0b011 => .ok .Absolute
      | 0b100 => .ok .DirectIndexedWord
      | 0b101 => .ok .DirectX
      | 0b110 => .ok .AbsoluteY
      | 0b111 => .ok .AbsoluteX
      | _ => .error .panicked
    | 0b10 =>
      match bbb with
      | 0b000 => .ok .Immediate
      | 0b001 => .ok .Direct
      | 0b010 => .ok .Accumulator
      | 0b011 => .ok .Absolute
      | 0b100 => .ok .DirectWord
      | 0b101 => .ok .DirectX
      | 0b110 => .error .unknownOpcode
      | 0b111 => .ok .AbsoluteX
      | _ => .error .panicked
    | 0b11 =>
      match bbb with
      | 0b000 => .ok .Stack
      | 0b001 => .ok .DirectSWord
      | 0b010 => .error .unknownOpcode
      | 0b011 => .ok .Long
      | 0b100 => .ok .StackIndexed
      | 0b101 => .ok .DirectIndexedSWord
      | 0b110 => .error .unknownOpcode
      | 0b111 => .ok .LongX
      | _ => .error .panicked
    | _ => .error .panicked

/-- cpu.rs: `calculate_address`: the effective 24-bit data address (and
the second address for `SourceDestination`) of one instruction.  Operand
bytes `l`, `h` come from `loc+1`, `loc+2` via `peek_byte`.  Rust
`wrapping_add` / `wrapping_sub` on `u8`/`u16`/`u32` appear as explicit
`% 2^w`. -/
def calculate_address (snes : Console) (op : OpCode) (mode : AddrMode)
    (loc : Nat) : Except MemError (Nat × Option Nat) := do
  let l ← peek_byte snes (loc + 1)
  let h ← peek_byte snes (loc + 2)
  match mode with
  | .Absolute =>
    if op.is_jump then
      .ok ((snes.cpu.K <<< 16) ||| (h <<< 8) ||| l, none)
    else
      .ok ((snes.cpu.DBR <<< 16) ||| (h <<< 8) ||| l, none)
  | .AbsoluteWord => .ok ((h <<< 8) ||| l, none)
  | .AbsoluteSWord => .ok ((h <<< 8) ||| l, none)
  | .AbsoluteX =>
    let refaddr := (snes.cpu.DBR <<< 16) ||| (h <<< 8) ||| l
    .ok (refaddr + snes.cpu.X, none)
  | .AbsoluteY =>
    let refaddr := (snes.cpu.DBR <<< 16) ||| (h <<< 8) ||| l
    .ok (refaddr + snes.cpu.Y, none)
  | .AbsoluteIndirectWord =>
    let refaddr := (h <<< 8) ||| l
    let w ← read_word snes refaddr
    .ok ((snes.cpu.K <<< 16) ||| w, none)
  | .AbsoluteIndirectSWord =>
    let refaddr := (h <<< 8) ||| l
    let low ← read_word snes refaddr
    let high ← read_byte snes (refaddr + 2)
    .ok ((high <<< 16) ||| low, none)
  | .AbsoluteIndexedIndirect =>
    let refaddr := (snes.cpu.K <<< 16) ||| (h <<< 8) ||| l
    .ok (refaddr + snes.cpu.X, none)
  | .Accumulator => .ok (snes.cpu.get_pc, none)
  | .Direct =>
    if snes.cpu.P.e ∧ (snes.cpu.D &&& 0xFF) = 0 ∧ op.is_old then
      .ok (((snes.cpu.D &&& 0xFF00) >>> 8) ||| l, none)
    else
      .ok (snes.cpu.D + l, none)
  | .DirectX =>
    if snes.cpu.P.e ∧ (snes.cpu.D &&& 0xFF) = 0 then
      let templ := ((snes.cpu.X &&& 0xFF) + (l &&& 0xFF)) % 0x100
      .ok (((snes.cpu.D &&& 0xFF00) >>> 8) ||| templ, none)
    else
      .ok (snes.cpu.D + l + snes.cpu.X, none)
  | .DirectY =>
    if snes.cpu.P.e ∧ (snes.cpu.D &&& 0xFF) = 0 then
      let templ := ((snes.cpu.Y &&& 0xFF) + (l &&& 0xFF)) % 0x100
      .ok (((snes.cpu.D &&& 0xFF00) >>> 8) ||| templ, none)
    else
      .ok (snes.cpu.D + l + snes.cpu.Y, none)
  | .DirectWord =>
    if snes.cpu.P.e ∧ (snes.cpu.D &&& 0xFF) = 0 then
      let temp_addr := ((snes.cpu.D &&& 0xFF00) >>> 8) ||| l
      let pointer ← read_word snes temp_addr
      .ok ((snes.cpu.DBR <<< 16) ||| pointer, none)
    else
      let temp_addr := snes.cpu.D + l
      let pointer ← read_word snes temp_addr
      .ok ((snes.cpu.DBR <<< 16) ||| pointer, none)
  | .DirectSWord =>
    let temp_addr := snes.cpu.D + l
    let pointer ← read_word snes temp_addr
    .ok ((snes.cpu.DBR <<< 16) ||| pointer, none)
  | .IndexedDirectWord =>
    if snes.cpu.P.e ∧ (snes.cpu.D &&& 0xFF) = 0 then
      let temp_addr := ((snes.cpu.D &&& 0xFF00) >>> 8) ||| l
      let pointer ← read_word snes ((temp_addr + snes.cpu.X) % 0x100000000)
      .ok ((snes.cpu.DBR <<< 16) ||| pointer, none)
    else
      let temp_addr := snes.cpu.D + l
      let pointer ← read_word snes ((temp_addr + snes.cpu.X) % 0x100000000)
      .ok ((snes.cpu.DBR <<< 16) ||| pointer, none)
  | .DirectIndexedWord =>
    if snes.cpu.P.e ∧ (snes.cpu.D &&& 0xFF) = 0 then
      let temp_addr := ((snes.cpu.D &&& 0xFF00) >>> 8) ||| l
      let pointer ← read_word snes temp_addr
      let temp_data_addr := (snes.cpu.DBR <<< 16) ||| pointer
      .ok ((temp_data_addr + snes.cpu.Y) % 0x100000000, none)
    else
      let temp_addr := snes.cpu.D + l
      let pointer ← read_word snes temp_addr
      let temp_data_addr := (snes.cpu.DBR <<< 16) ||| pointer
      .ok ((temp_data_addr + snes.cpu.Y) % 0x100000000, none)
  | .DirectIndexedSWord =>
    let temp_addr := snes.cpu.D + l
    let pointer_lo ← read_byte snes temp_addr
    let pointer_mid ← read_byte snes (temp_addr + 1)
    let pointer_hi ← read_byte snes (temp_addr + 2)
    let temp_data_addr := (pointer_hi <<< 16) ||| (pointer_mid <<< 8) ||| pointer_lo
    .ok ((temp_data_addr + snes.cpu.Y) % 0x100000000, none)
  | .Immediate => .ok (snes.cpu.get_pc + 1, none)
  | .Implied => .ok (snes.cpu.get_pc, none)
  | .Long =>
    let hh ← read_byte snes (snes.cpu.get_pc + 3)
    .ok ((hh <<< 16) ||| ((h &&& 0xFF) <<< 8) ||| (l &&& 0xFF), none)
  | .LongX =>
    let hh ← read_byte snes (snes.cpu.get_pc + 3)
    let temp := (hh <<< 16) ||| ((h &&& 0xFF) <<< 8) ||| (l &&& 0xFF)
    .ok (temp + snes.cpu.X, none)
  | .RelativeByte =>
    let temp :=
      if l ≤ 0x7F then (snes.cpu.PC + 2 + l) % 0x10000
      else (snes.cpu.PC + 0x10000 - 254 + l) % 0x10000
    .ok ((snes.cpu.K <<< 16) ||| temp, none)
  | .RelativeWord =>
    let temp :=
      (snes.cpu.PC + 3 + (((h &&& 0xFF) <<< 8) ||| (l &&& 0xFF))) % 0x10000
    .ok ((snes.cpu.K <<< 16) ||| temp, none)
  | .SourceDestination =>
    .ok ((h <<< 16) ||| snes.cpu.Y, some ((l <<< 16) ||| snes.cpu.X))
  | .Stack => .ok ((l + snes.cpu.S) % 0x10000, none)
  | .StackIndexed =>
    let low ← read_byte snes ((l + snes.cpu.S) % 0x10000)
    let high ← read_byte snes ((l + snes.cpu.S + 1) % 0x10000)
    let temp := (snes.cpu.DBR <<< 16) ||| (high <<< 8) ||| low
    .ok (temp + snes.cpu.Y, none)

/-- cpu.rs: the 256-entry opcode-byte-to-mnemonic table at the head of
`decode_instruction`.  The Rust `match` on a `u8` is exhaustive over
`0..=255`; the final default below is only reached for `Nat` inputs of
`0x100` and above, which no caller produces. -/
def decode_opcode (instruction : Nat) : OpCode :=
  match instruction with
  | 0x00 => .BRK
  | 0x01 | 0x03 | 0x05 | 0x07 | 0x09 | 0x0D | 0x0F | 0x11 | 0x12 | 0x13
  | 0x15 | 0x17 | 0x19 | 0x1D | 0x1F => .ORA
  | 0x02 => .COP
  | 0x04 | 0x0C => .TSB
  | 0x06 | 0x0A | 0x0E | 0x16 | 0x1E => .ASL
  | 0x08 => .PHP
  | 0x0B => .PHD
  | 0x10 => .BPL
  | 0x14 | 0x1C => .TRB
  | 0x18 => .CLC
  | 0x1A | 0xE6 | 0xEE | 0xF6 | 0xFE => .INC
  | 0x1B => .TCS
  | 0x20 | 0xFC => .JSR
  | 0x21 | 0x23 | 0x25 | 0x27 | 0x29 | 0x2D | 0x2F | 0x31 | 0x32 | 0x33
  | 0x35 | 0x37 | 0x39 | 0x3D | 0x3F => .AND
  | 0x22 => .JSL
  | 0x24 | 0x2C | 0x34 | 0x3C | 0x89 => .BIT
  | 0x26 | 0x2A | 0x2E | 0x36 | 0x3E => .ROL
  | 0x28 => .PLP
  | 0x2B => .PLD
  | 0x30 => .BMI
  | 0x38 => .SEC
  | 0x3A | 0xC6 | 0xCE | 0xD6 | 0xDE => .DEC
  | 0x3B => .TSC
  | 0x40 => .RTI
  | 0x41 | 0x43 | 0x45 | 0x47 | 0x49 | 0x4D | 0x4F | 0x51 | 0x52 | 0x53
  | 0x55 | 0x57 | 0x59 | 0x5D | 0x5F => .EOR
  | 0x42 => .WDM
  | 0x44 => .MVP
  | 0x46 | 0x4A | 0x4E | 0x56 | 0x5E => .LSR
  | 0x48 => .PHA
  | 0x4B => .PHK
  | 0x4C | 0x5C | 0x6C | 0x7C => .JMP
  | 0x50 => .BVC
  | 0x54 => .MVN
  | 0x58 => .CLI
  | 0x5A => .PHY
  | 0x5B => .TCD
  | 0x60 => .RTS
  | 0x61 | 0x63 | 0x65 | 0x67 | 0x69 | 0x6D | 0x6F | 0x71 | 0x72 | 0x73
  | 0x75 | 0x77 | 0x79 | 0x7D | 0x7F => .ADC
  | 0x62 => .PER
  | 0x64 | 0x74 | 0x9C | 0x9E => .STZ
  | 0x66 | 0x6A | 0x6E | 0x76 | 0x7E => .ROR
  | 0x68 => .PLA
  | 0x6B => .RTL
  | 0x70 => .BVS
  | 0x78 => .SEI
  | 0x7A => .PLY
  | 0x7B => .TDC
  | 0x80 => .BRA
  | 0x81 | 0x83 | 0x85 | 0x87 | 0x8D | 0x8F | 0x91 | 0x92 | 0x93 | 0x95
  | 0x97 | 0x99 | 0x9D | 0x9F => .STA
  | 0x82 => .BRL
  | 0x84 | 0x8C | 0x94 => .STY
  | 0x86 | 0x8E | 0x96 => .STX
  | 0x88 => .DEY
  | 0x8A => .TXA
  | 0x8B => .PHB
  | 0x90 => .BCC
  | 0x98 => .TYA
  | 0x9A => .TXS
  | 0x9B => .TXY
  | 0xA0 | 0xA4 | 0xAC | 0xB4 | 0xBC => .LDY
  | 0xA1 | 0xA3 | 0xA5 | 0xA7 | 0xA9 | 0xAD | 0xAF | 0xB1 | 0xB2 | 0xB3
  | 0xB5 | 0xB7 | 0xB9 | 0xBD | 0xBF => .LDA
  | 0xA2 | 0xA6 | 0xAE | 0xB6 | 0xBE => .LDX
  | 0xA8 => .TAY
  | 0xAA => .TAX
  | 0xAB => .PLB
  | 0xB0 => .BCS
  | 0xB8 => .CLV
  | 0xBA => .TSX
  | 0xBB => .TYX
  | 0xC0 | 0xC4 | 0xCC => .CPY
  | 0xC1 | 0xC3 | 0xC5 | 0xC7 | 0xC9 | 0xCD | 0xCF | 0xD1 | 0xD2 | 0xD3
  | 0xD5 | 0xD7 | 0xD9 | 0xDD | 0xDF => .CMP
  | 0xC2 => .REP
  | 0xC8 => .INY
  | 0xCA => .DEX
  | 0xCB => .WAI
  | 0xD0 => .BNE
  | 0xD4 => .PEI
  | 0xD8 => .CLD
  | 0xDA => .PHX
  | 0xDB => .STP
  | 0xDC => .JML
  | 0xE0 | 0xE4 | 0xEC => .CPX
  | 0xE1 | 0xE3 | 0xE5 | 0xE7 | 0xE9 | 0xED | 0xEF | 0xF1 | 0xF2 | 0xF3
  | 0xF5 | 0xF7 | 0xF9 | 0xFD | 0xFF => .SBC
  | 0xE2 => .SEP
  | 0xE8 => .INX
  | 0xEA => .NOP
  | 0xEB => .XBA
  | 0xF0 => .BEQ
  | 0xF4 => .PEA
  | 0xF8 => .SED
  | 0xFA => .PLX
  | 0xFB => .XCE
  | _ => .BRK

/-- cpu.rs: `decode_instruction`: mnemonic table, addressing-mode decode
and effective-address calculation for the opcode byte at `loc`. -/
def decode_instruction (snes : Console) (instruction : Nat) (loc : Nat) :
    Except MemError InstructionContext := do
  let opcode := decode_opcode instruction
  let mode ← decode_addressing_mode instruction
  let address ← calculate_address snes opcode mode loc
  .ok { opcode := opcode, mode := mode, inst_addr := loc,
        data_addr := address.1, dest_addr := address.2 }

end Snes

namespace Snes

/-! ## cpu.rs: stack helpers and the executor -/

/-- cpu.rs: `push_byte`: write at the stack pointer, then decrement; in
emulation mode only the low byte of `S` moves (within page 1). -/
def push_byte (snes : Console) (data : Nat) : Except MemError Console :=
  match snes.cpu.P.e with
  | true => do
    let sl := snes.cpu.S &&& 0xFF
    let s1 ← write_byte snes (0x000100 ||| sl) data
    let sl2 := (sl + 0xFF) % 0x100
    .ok { s1 with cpu := { s1.cpu with S := (s1.cpu.S &&& 0xFF00) ||| sl2 } }
  | false => do
    let s1 ← write_byte snes snes.cpu.S data
    .ok { s1 with cpu := { s1.cpu with S := (s1.cpu.S + 0xFFFF) % 0x10000 } }

/-- cpu.rs: `pull_byte`: increment the stack pointer, then read. -/
def pull_byte (snes : Console) : Except MemError (Nat × Console) :=
  match snes.cpu.P.e with
  | true =>
    let sl := ((snes.cpu.S &&& 0xFF) + 1) % 0x100
    let s1 := { snes with cpu := { snes.cpu with S := (snes.cpu.S &&& 0xFF00) ||| sl } }
    do
      let v ← read_byte s1 (0x000100 ||| sl)
      .ok (v, s1)
  | false =>
    let s1 := { snes with cpu := { snes.cpu with S := (snes.cpu.S + 1) % 0x10000 } }
    do
      let v ← read_byte s1 s1.cpu.S
      .ok (v, s1)

/-- cpu.rs: `push_word`: high byte first, then low byte, decrementing
after each write. -/
def push_word (snes : Console) (data : Nat) : Except MemError Console :=
  let datal := data &&& 0xFF
  let datah := (data &&& 0xFF00) >>> 8
  match snes.cpu.P.e with
  | true => do
    let sl := snes.cpu.S &&& 0xFF
    let s1 ← write_byte snes (0x000100 ||| sl) datah
    let sl2 := (sl + 0xFF) % 0x100
    let s2 ← write_byte s1 (0x000100 ||| sl2) datal
    let sl3 := (sl2 + 0xFF) % 0x100
    .ok { s2 with cpu := { s2.cpu with S := (s2.cpu.S &&& 0xFF00) ||| sl3 } }
  | false => do
    let s1 ← write_byte snes snes.cpu.S datah
    let s2 := { s1 with cpu := { s1.cpu with S := (s1.cpu.S + 0xFFFF) % 0x10000 } }
    let s3 ← write_byte s2 s2.cpu.S datal
    .ok { s3 with cpu := { s3.cpu with S := (s3.cpu.S + 0xFFFF) % 0x10000 } }

/-- cpu.rs: `pull_word`: low byte first, then high byte, incrementing
before each read. -/
def pull_word (snes : Console) : Except MemError (Nat × Console) :=
  match snes.cpu.P.e with
  | true => do
    let sl := ((snes.cpu.S &&& 0xFF) + 1) % 0x100
    let datal ← read_byte snes (0x000100 ||| sl)
    let sl2 := (sl + 1) % 0x100
    let datah ← read_byte snes (0x000100 ||| sl2)
    let s1 := { snes with cpu := { snes.cpu with S := (snes.cpu.S &&& 0xFF00) ||| sl2 } }
    .ok ((datah <<< 8) ||| datal, s1)
  | false => do
    let s1 := { snes with cpu := { snes.cpu with S := (snes.cpu.S + 1) % 0x10000 } }
    let datal ← read_byte s1 s1.cpu.S
    let s2 := { s1 with cpu := { s1.cpu with S := (s1.cpu.S + 1) % 0x10000 } }
    let datah ← read_byte s2 s2.cpu.S
    .ok ((datah <<< 8) ||| datal, s2)

/-- cpu.rs: the common executor tail
`snes.cpu.PC += instruction.length(m, x); Ok(Normal)`, shared verbatim by
`execute_instruction` and `execute_instruction_emu`. -/
def advance_pc (snes : Console) (instruction : InstructionContext) :
    Except MemError (CPUExecutionResult × Console) := do
  let len ← instruction.length snes.cpu.P.m snes.cpu.P.x
  .ok (.Normal,
    { snes with cpu := { snes.cpu with PC := (snes.cpu.PC + len) % 0x10000 } })

/-- cpu.rs: `execute_instruction_emu`: the emulation-mode executor.  Only
`BRK`, `JMP`, `SEI`, `CLC` and `XCE` are implemented; every other opcode
hits the `todo!()` arm.  The emulation-mode `XCE` swaps `C` and `E`
without forcing `M`/`X`/`S`. -/
def execute_instruction_emu (snes : Console) (instruction : InstructionContext) :
    Except MemError (CPUExecutionResult × Console) :=
  match instruction.opcode with
  | .BRK => do
    let s1 ← push_word snes (((instruction.inst_addr &&& 0xFF) + 2) % 0x10000)
    let p := s1.cpu.p_byte ||| 0b00010000
    let s2 ← push_byte s1 p
    .ok (.Interrupt,
      { s2 with cpu := { s2.cpu with
          K := 0,
          PC := s2.cartridge.header.interrupt_vectors.brk_emu,
          P := { s2.cpu.P with i := true, d := false } } })
  | .JMP =>
    .ok (.Jump, { snes with cpu := snes.cpu.set_pc instruction.data_addr })
  | .SEI =>
    let s1 := { snes with cpu := { snes.cpu with P := { snes.cpu.P with i := true } } }
    advance_pc s1 instruction
  | .CLC =>
    let s1 := { snes with cpu := { snes.cpu with P := { snes.cpu.P with c := false } } }
    advance_pc s1 instruction
  | .XCE =>
    let temp := snes.cpu.P.c
    let s1 := { snes with cpu := { snes.cpu with
      P := { snes.cpu.P with c := snes.cpu.P.e, e := temp } } }
    advance_pc s1 instruction
  | _ => .error .panicked

/-- cpu.rs: `execute_instruction`: the native-mode executor (dispatching
to `execute_instruction_emu` when `E = 1`).  Each arm is translated from
the corresponding `match` arm of the source; opcodes without an arm
(`BCS`, `BVC`, `BVS`, `BRL`, `CLD`, `CLV`, `COP`, `JML`, `MVN`, `MVP`,
`PEA`, `PEI`, `PER`, `SED`, `SEI`, `STP`, `TCS`, `TSC`, `TXY`, `TYX`,
`WAI`, `WDM`) hit the final `todo!()`.  `ADC`/`SBC` with `D = 1` hit
`unimplemented!("Decimal mode")`.  On an error the embedding returns the
pre-instruction state; the Rust source can leave flag updates made
before a failing memory access behind, a difference no theorem below
relies on. -/
def execute_instruction (snes : Console) (instruction : InstructionContext) :
    Except MemError (CPUExecutionResult × Console) :=
  if snes.cpu.P.e then execute_instruction_emu snes instruction else
  match instruction.opcode with
  | .JMP =>
    .ok (.Jump, { snes with cpu := snes.cpu.set_pc instruction.data_addr })
  | .JSL => do
    let s1 ← push_byte snes snes.cpu.K
    let s2 ← push_word s1 (((instruction.inst_addr &&& 0xFFFF) + 3) % 0x10000)
    .ok (.Subroutine instruction.data_addr,
      { s2 with cpu := s2.cpu.set_pc instruction.data_addr })
  | .JSR => do
    let s1 ← push_word snes (((instruction.inst_addr &&& 0xFFFF) + 2) % 0x10000)
    .ok (.Subroutine instruction.data_addr,
      { s1 with cpu := s1.cpu.set_pc instruction.data_addr })
  | .RTI => do
    let (p, s1) ← pull_byte snes
    let s2 := { s1 with cpu := s1.cpu.set_p p }
    let (pc, s3) ← pull_word s2
    let s4 := { s3 with cpu := { s3.cpu with PC := pc } }
    let (k, s5) ← pull_byte s4
    .ok (.Return, { s5 with cpu := { s5.cpu with K := k } })
  | .ADC =>
    if snes.cpu.P.d then .error .panicked
    else do
      let mval ← read_word snes instruction.data_addr
      let a1 := (snes.cpu.A + mval) % 0x10000
      let overflow := decide (0x10000 ≤ snes.cpu.A + mval)
      let cin := if snes.cpu.P.c then 1 else 0
      let a2 := (a1 + cin) % 0x10000
      let overflow2 := decide (0x10000 ≤ a1 + cin)
      let s1 := { snes with cpu := { snes.cpu with
        A := a2,
        P := { snes.cpu.P with
          z := decide (a2 = 0),
          n := decide (0b10000000 ≤ a2),
          v := overflow || overflow2,
          c := overflow || overflow2 } } }
      advance_pc s1 instruction
  | .AND =>
    if snes.cpu.P.m then do
      let b ← read_byte snes instruction.data_addr
      let temp := (snes.cpu.A &&& 0xFF) &&& b
      let s1 := { snes with cpu := { snes.cpu with
        A := (snes.cpu.A &&& 0xFF00) ||| temp,
        P := { snes.cpu.P with
          z := decide (temp = 0), n := decide (temp &&& 0x80 ≠ 0) } } }
      advance_pc s1 instruction
    else do
      let w ← read_word snes instruction.data_addr
      let temp := snes.cpu.A &&& w
      let s1 := { snes with cpu := { snes.cpu with
        A := temp,
        P := { snes.cpu.P with
          z := decide (temp = 0), n := decide (temp &&& 0x8000 ≠ 0) } } }
      advance_pc s1 instruction
  | .ASL =>
    if snes.cpu.P.m then
      if instruction.mode = AddrMode.Accumulator then
        let temp := (snes.cpu.A <<< 1) % 0x10000
        let s1 := { snes with cpu := { snes.cpu with
          A := temp,
          P := { snes.cpu.P with
            c := decide (0 < snes.cpu.A &&& 0x80),
            z := decide (temp = 0),
            n := decide (0b10000000 ≤ temp) } } }
        advance_pc s1 instruction
      else do
        let data ← read_byte snes instruction.data_addr
        let temp := (data <<< 1) % 0x100
        let s1 := { snes with cpu := { snes.cpu with
          P := { snes.cpu.P with
            c := decide (0 < data &&& 0x80),
            z := decide (temp = 0),
            n := decide (0b10000000 ≤ temp) } } }
        let s2 ← write_byte s1 instruction.data_addr temp
        advance_pc s2 instruction
    else
      if instruction.mode = AddrMode.Accumulator then
        let temp := (snes.cpu.A <<< 1) % 0x10000
        let s1 := { snes with cpu := { snes.cpu with
          A := temp,
          P := { snes.cpu.P with
            c := decide (0 < snes.cpu.A &&& 0x8000),
            z := decide (temp = 0),
            n := decide (0b10000000 ≤ temp) } } }
        advance_pc s1 instruction
      else do
        let data ← read_word snes instruction.data_addr
        let temp := (data <<< 1) % 0x10000
        let s1 := { snes with cpu := { snes.cpu with
          P := { snes.cpu.P with
            c := decide (0 < data &&& 0x8000),
            z := decide (temp = 0),
            n := decide (0b10000000 ≤ temp) } } }
        let s2 ← write_word s1 instruction.data_addr temp
        advance_pc s2 instruction
  | .BCC =>
    if ¬ snes.cpu.P.c then
      .ok (.BranchTaken,
        { snes with cpu := { snes.cpu with PC := instruction.data_addr &&& 0xFFFF } })
    else advance_pc snes instruction
  | .BEQ =>
    if snes.cpu.P.z then
      .ok (.BranchTaken,
        { snes with cpu := { snes.cpu with PC := instruction.data_addr &&& 0xFFFF } })
    else advance_pc snes instruction
  | .BRA =>
    .ok (.BranchTaken,
      { snes with cpu := { snes.cpu with PC := instruction.data_addr &&& 0xFFFF } })
  | .BIT =>
    if instruction.mode ≠ AddrMode.Immediate then do
      let b ← read_byte snes instruction.data_addr
      let s1 := { snes with cpu := { snes.cpu with
        P := { snes.cpu.P with z := decide ((snes.cpu.A &&& 0xFF) &&& b = 0) } } }
      advance_pc s1 instruction
    else
      if snes.cpu.P.m then do
        let temp ← read_byte snes instruction.data_addr
        let s1 := { snes with cpu := { snes.cpu with
          P := { snes.cpu.P with
            z := decide (temp &&& (snes.cpu.A &&& 0xFF) = 0),
            n := decide (0 < temp &&& 0x80),
            v := decide (0 < temp &&& 0x40) } } }
        advance_pc s1 instruction
      else do
        let temp ← read_word snes instruction.data_addr
        let s1 := { snes with cpu := { snes.cpu with
          P := { snes.cpu.P with
            z := decide (temp &&& snes.cpu.A = 0),
            n := decide (0 < temp &&& 0x8000),
            v := decide (0 < temp &&& 0x4000) } } }
        advance_pc s1 instruction
  | .BPL =>
    if ¬ snes.cpu.P.n then
      .ok (.BranchTaken,
        { snes with cpu := { snes.cpu with PC := instruction.data_addr &&& 0xFFFF } })
    else advance_pc snes instruction
  | .BMI =>
    if snes.cpu.P.n then
      .ok (.BranchTaken,
        { snes with cpu := { snes.cpu with PC := instruction.data_addr &&& 0xFFFF } })
    else advance_pc snes instruction
  | .BNE =>
    if ¬ snes.cpu.P.z then
      .ok (.BranchTaken,
        { snes with cpu := { snes.cpu with PC := instruction.data_addr &&& 0xFFFF } })
    else advance_pc snes instruction
  | .BRK => do
    let s1 ← push_byte snes snes.cpu.K
    let s2 ← push_word s1 (((instruction.inst_addr &&& 0xFF) + 2) % 0x10000)
    let s3 ← push_byte s2 s2.cpu.p_byte
    .ok (.Interrupt,
      { s3 with cpu := { s3.cpu with
          K := 0,
          PC := s3.cartridge.header.interrupt_vectors.brk } })
  | .CLC =>
    let s1 := { snes with cpu := { snes.cpu with P := { snes.cpu.P with c := false } } }
    advance_pc s1 instruction
  | .CLI =>
    let s1 := { snes with cpu := { snes.cpu with P := { snes.cpu.P with i := false } } }
    advance_pc s1 instruction
  | .SEC =>
    let s1 := { snes with cpu := { snes.cpu with P := { snes.cpu.P with c := true } } }
    advance_pc s1 instruction
  | .CMP =>
    if snes.cpu.P.m then do
      let data ← read_byte snes instruction.data_addr
      let temp := (snes.cpu.A + 0x10000 - data) % 0x10000
      let s1 := { snes with cpu := { snes.cpu with
        P := { snes.cpu.P with
          n := decide (0b10000000 ≤ temp),
          z := decide (temp = 0),
          c := decide (data ≤ snes.cpu.A) } } }
      advance_pc s1 instruction
    else do
      let data ← read_word snes instruction.data_addr
      let temp := (snes.cpu.A + 0x10000 - data) % 0x10000
      let s1 := { snes with cpu := { snes.cpu with
        P := { snes.cpu.P with
          n := decide (0b10000000 ≤ temp),
          z := decide (temp = 0),
          c := decide (data ≤ snes.cpu.A) } } }
      advance_pc s1 instruction
  | .CPX =>
    if snes.cpu.P.x then do
      let data ← read_byte snes instruction.data_addr
      let temp := (snes.cpu.X + 0x10000 - data) % 0x10000
      let s1 := { snes with cpu := { snes.cpu with
        P := { snes.cpu.P with
          n := decide (0b10000000 ≤ temp),
          z := decide (temp = 0),
          c := decide (data ≤ snes.cpu.X) } } }
      advance_pc s1 instruction
    else do
      let data ← read_word snes instruction.data_addr
      let temp := (snes.cpu.X + 0x10000 - data) % 0x10000
      let s1 := { snes with cpu := { snes.cpu with
        P := { snes.cpu.P with
          n := decide (0b10000000 ≤ temp),
          z := decide (temp = 0),
          c := decide (data ≤ snes.cpu.X) } } }
      advance_pc s1 instruction
  | .CPY =>
    if snes.cpu.P.x then do
      let data ← read_byte snes instruction.data_addr
      let temp := (snes.cpu.Y + 0x10000 - data) % 0x10000
      let s1 := { snes with cpu := { snes.cpu with
        P := { snes.cpu.P with
          n := decide (0b10000000 ≤ temp),
          z := decide (temp = 0),
          c := decide (data ≤ snes.cpu.Y) } } }
      advance_pc s1 instruction
    else do
      let data ← read_word snes instruction.data_addr
      let temp := (snes.cpu.Y + 0x10000 - data) % 0x10000
      let s1 := { snes with cpu := { snes.cpu with
        P := { snes.cpu.P with
          n := decide (0b10000000 ≤ temp),
          z := decide (temp = 0),
          c := decide (data ≤ snes.cpu.Y) } } }
      advance_pc s1 instruction
  | .DEC =>
    if instruction.mode = AddrMode.Accumulator then
      if snes.cpu.P.m then
        let temp := ((snes.cpu.A &&& 0xFF) + 0xFF) % 0x100
        let s1 := { snes with cpu := { snes.cpu with
          A := (snes.cpu.A &&& 0xFF00) ||| temp,
          P := { snes.cpu.P with
            n := decide (temp &&& 0x80 ≠ 0), z := decide (temp = 0) } } }
        advance_pc s1 instruction
      else
        let temp := (snes.cpu.A + 0xFFFF) % 0x10000
        let s1 := { snes with cpu := { snes.cpu with
          A := temp,
          P := { snes.cpu.P with
            n := decide (temp &&& 0x8000 ≠ 0), z := decide (temp = 0) } } }
        advance_pc s1 instruction
    else
      if snes.cpu.P.m then do
        let data0 ← read_byte snes instruction.data_addr
        let data := (data0 + 0xFF) % 0x100
        let s1 ← write_byte snes instruction.data_addr data
        let s2 := { s1 with cpu := { s1.cpu with
          P := { s1.cpu.P with
            n := decide (data &&& 0x80 ≠ 0), z := decide (data = 0) } } }
        advance_pc s2 instruction
      else do
        let data0 ← read_word snes instruction.data_addr
        let data := (data0 + 0xFFFF) % 0x10000
        let s1 ← write_word snes instruction.data_addr data
        let s2 := { s1 with cpu := { s1.cpu with
          P := { s1.cpu.P with
            n := decide (data &&& 0x8000 ≠ 0), z := decide (data = 0) } } }
        advance_pc s2 instruction
  | .DEX =>
    if snes.cpu.P.x then
      let temp := ((snes.cpu.X &&& 0xFF) + 0xFF) % 0x100
      let s1 := { snes with cpu := { snes.cpu with
        X := (snes.cpu.X &&& 0xFF00) ||| temp,
        P := { snes.cpu.P with
          n := decide (temp &&& 0x80 ≠ 0), z := decide (temp = 0) } } }
      advance_pc s1 instruction
    else
      let temp := (snes.cpu.X + 0xFFFF) % 0x10000
      let s1 := { snes with cpu := { snes.cpu with
        X := temp,
        P := { snes.cpu.P with
          n := decide (temp &&& 0x8000 ≠ 0), z := decide (temp = 0) } } }
      advance_pc s1 instruction
  | .DEY =>
    if snes.cpu.P.x then
      let temp := ((snes.cpu.Y &&& 0xFF) + 0xFF) % 0x100
      let s1 := { snes with cpu := { snes.cpu with
        Y := (snes.cpu.Y &&& 0xFF00) ||| temp,
        P := { snes.cpu.P with
          n := decide (temp &&& 0x80 ≠ 0), z := decide (temp = 0) } } }
      advance_pc s1 instruction
    else
      let temp := (snes.cpu.Y + 0xFFFF) % 0x10000
      let s1 := { snes with cpu := { snes.cpu with
        Y := temp,
        P := { snes.cpu.P with
          n := decide (temp &&& 0x8000 ≠ 0), z := decide (temp = 0) } } }
      advance_pc s1 instruction
  | .INC =>
    if instruction.mode = AddrMode.Accumulator then
      if snes.cpu.P.m then
        let temp := ((snes.cpu.A &&& 0xFF) + 1) % 0x100
        let s1 := { snes with cpu := { snes.cpu with
          A := (snes.cpu.A &&& 0xFF00) ||| temp,
          P := { snes.cpu.P with
            n := decide (temp &&& 0x80 ≠ 0), z := decide (temp = 0) } } }
        advance_pc s1 instruction
      else
        let temp := (snes.cpu.A + 1) % 0x10000
        let s1 := { snes with cpu := { snes.cpu with
          A := temp,
          P := { snes.cpu.P with
            n := decide (temp &&& 0x8000 ≠ 0), z := decide (temp = 0) } } }
        advance_pc s1 instruction
    else
      if snes.cpu.P.m then do
        let data0 ← read_byte snes instruction.data_addr
        let data := (data0 + 1) % 0x100
        let s1 ← write_byte snes instruction.data_addr data
        let s2 := { s1 with cpu := { s1.cpu with
          P := { s1.cpu.P with
            n := decide (data &&& 0x80 ≠ 0), z := decide (data = 0) } } }
        advance_pc s2 instruction
      else do
        let data0 ← read_word snes instruction.data_addr
        let data := (data0 + 1) % 0x10000
        let s1 ← write_word snes instruction.data_addr data
        let s2 := { s1 with cpu := { s1.cpu with
          P := { s1.cpu.P with
            n := decide (data &&& 0x8000 ≠ 0), z := decide (data = 0) } } }
        advance_pc s2 instruction
  | .INX =>
    if snes.cpu.P.x then
      let temp := ((snes.cpu.X &&& 0xFF) + 1) % 0x100
      let s1 := { snes with cpu := { snes.cpu with
        X := (snes.cpu.X &&& 0xFF00) ||| temp,
        P := { snes.cpu.P with
          n := decide (temp &&& 0x80 ≠ 0), z := decide (temp = 0) } } }
      advance_pc s1 instruction
    else
      let temp := (snes.cpu.X + 1) % 0x10000
      let s1 := { snes with cpu := { snes.cpu with
        X := temp,
        P := { snes.cpu.P with
          n := decide (temp &&& 0x8000 ≠ 0), z := decide (temp = 0) } } }
      advance_pc s1 instruction
  | .INY =>
    if snes.cpu.P.x then
      let temp := ((snes.cpu.Y &&& 0xFF) + 1) % 0x100
      let s1 := { snes with cpu := { snes.cpu with
        Y := (snes.cpu.Y &&& 0xFF00) ||| temp,
        P := { snes.cpu.P with
          n := decide (temp &&& 0x80 ≠ 0), z := decide (temp = 0) } } }
      advance_pc s1 instruction
    else
      let temp := (snes.cpu.Y + 1) % 0x10000
      let s1 := { snes with cpu := { snes.cpu with
        Y := temp,
        P := { snes.cpu.P with
          n := decide (temp &&& 0x8000 ≠ 0), z := decide (temp = 0) } } }
      advance_pc s1 instruction
  | .LSR =>
    if snes.cpu.P.m then
      if instruction.mode = AddrMode.Accumulator then
        let temp_a := ((snes.cpu.A &&& 0xFE) &&& 0xFF) >>> 1
        let s1 := { snes with cpu := { snes.cpu with
          A := (snes.cpu.A &&& 0xFF00) ||| temp_a,
          P := { snes.cpu.P with
            c := decide (snes.cpu.A &&& 0x01 ≠ 0),
            z := decide (temp_a = 0),
            n := false } } }
        advance_pc s1 instruction
      else do
        let temp0 ← read_byte snes instruction.data_addr
        let temp := (temp0 &&& 0xFE) >>> 1
        let s1 := { snes with cpu := { snes.cpu with
          P := { snes.cpu.P with
            c := decide (temp0 &&& 0x01 ≠ 0) } } }
        let s2 ← write_byte s1 instruction.data_addr temp
        let s3 := { s2 with cpu := { s2.cpu with
          P := { s2.cpu.P with z := decide (temp = 0), n := false } } }
        advance_pc s3 instruction
    else
      if instruction.mode = AddrMode.Accumulator then
        let temp_a := (snes.cpu.A &&& 0xFFFE) >>> 1
        let s1 := { snes with cpu := { snes.cpu with
          A := (snes.cpu.A &&& 0xFF00) ||| temp_a,
          P := { snes.cpu.P with
            c := decide (snes.cpu.A &&& 0x0001 ≠ 0),
            z := decide (temp_a = 0),
            n := false } } }
        advance_pc s1 instruction
      else do
        let temp0 ← read_word snes instruction.data_addr
        let temp := (temp0 &&& 0xFFFE) >>> 1
        let s1 := { snes with cpu := { snes.cpu with
          P := { snes.cpu.P with
            c := decide (temp0 &&& 0x0001 ≠ 0) } } }
        let s2 ← write_word s1 instruction.data_addr temp
        let s3 := { s2 with cpu := { s2.cpu with
          P := { s2.cpu.P with z := decide (temp = 0), n := false } } }
        advance_pc s3 instruction
  | .ROL =>
    if snes.cpu.P.m then
      if instruction.mode = AddrMode.Accumulator then
        let temp_c := snes.cpu.A &&& 0x00F0
        let temp_a0 := (((snes.cpu.A &&& 0xFF) &&& 0x7F) <<< 1) % 0x100
        let temp_a := (temp_a0 + (if snes.cpu.P.c then 1 else 0)) % 0x100
        let s1 := { snes with cpu := { snes.cpu with
          A := (snes.cpu.A &&& 0xFF00) ||| temp_a,
          P := { snes.cpu.P with
            c := decide (temp_c ≠ 0),
            z := decide (temp_a = 0),
            n := decide (temp_a &&& 0x80 ≠ 0) } } }
        advance_pc s1 instruction
      else do
        let temp0 ← read_byte snes instruction.data_addr
        let temp_c := temp0 &&& 0xF0
        let temp1 := ((temp0 &&& 0x7F) <<< 1) % 0x100
        let temp := (temp1 + (if snes.cpu.P.c then 1 else 0)) % 0x100
        let s1 := { snes with cpu := { snes.cpu with
          P := { snes.cpu.P with c := decide (temp_c ≠ 0) } } }
        let s2 ← write_byte s1 instruction.data_addr temp
        let s3 := { s2 with cpu := { s2.cpu with
          P := { s2.cpu.P with
            z := decide (temp = 0), n := decide (temp &&& 0x80 ≠ 0) } } }
        advance_pc s3 instruction
    else
      if instruction.mode = AddrMode.Accumulator then
        let temp_c := snes.cpu.A &&& 0xF000
        let temp_a0 := ((snes.cpu.A &&& 0x7FFF) <<< 1) % 0x10000
        let temp_a := (temp_a0 + (if snes.cpu.P.c then 1 else 0)) % 0x10000
        let s1 := { snes with cpu := { snes.cpu with
          A := temp_a,
          P := { snes.cpu.P with
            c := decide (temp_c ≠ 0),
            z := decide (temp_a ≠ 0),
            n := decide (temp_a &&& 0x8000 ≠ 0) } } }
        advance_pc s1 instruction
      else do
        let temp0 ← read_word snes instruction.data_addr
        let temp_c := temp0 &&& 0xF000
        let temp1 := ((temp0 &&& 0x7FFF) <<< 1) % 0x10000
        let temp := (temp1 + (if snes.cpu.P.c then 1 else 0)) % 0x10000
        let s1 := { snes with cpu := { snes.cpu with
          P := { snes.cpu.P with c := decide (temp_c ≠ 0) } } }
        let s2 ← write_word s1 instruction.data_addr temp
        let s3 := { s2 with cpu := { s2.cpu with
          P := { s2.cpu.P with
            z := decide (temp ≠ 0), n := decide (temp &&& 0x8000 ≠ 0) } } }
        advance_pc s3 instruction
  | .ROR =>
    if snes.cpu.P.m then
      if instruction.mode = AddrMode.Accumulator then
        let temp_a := (snes.cpu.A &&& 0xFE) >>> 1
        let s1 := { snes with cpu := { snes.cpu with
          A := (snes.cpu.A &&& 0xFF00) ||| temp_a,
          P := { snes.cpu.P with
            c := decide (snes.cpu.A &&& 0x01 ≠ 0),
            z := decide (temp_a = 0),
            n := decide (temp_a &&& 0x80 ≠ 0) } } }
        advance_pc s1 instruction
      else do
        let temp0 ← read_byte snes instruction.data_addr
        let temp := (temp0 &&& 0xFE) >>> 1
        let s1 := { snes with cpu := { snes.cpu with
          P := { snes.cpu.P with c := decide (temp0 &&& 0x01 ≠ 0) } } }
        let s2 ← write_byte s1 instruction.data_addr temp
        let s3 := { s2 with cpu := { s2.cpu with
          P := { s2.cpu.P with
            z := decide (temp = 0), n := decide (temp &&& 0x80 ≠ 0) } } }
        advance_pc s3 instruction
    else
      if instruction.mode = AddrMode.Accumulator then
        let temp_a := (snes.cpu.A &&& 0xFFFE) >>> 1
        let s1 := { snes with cpu := { snes.cpu with
          A := (snes.cpu.A &&& 0xFF00) ||| temp_a,
          P := { snes.cpu.P with
            c := decide (snes.cpu.A &&& 0x0001 ≠ 0),
            z := decide (temp_a = 0),
            n := decide (temp_a &&& 0x8000 ≠ 0) } } }
        advance_pc s1 instruction
      else do
        let temp0 ← read_word snes instruction.data_addr
        let temp := (temp0 &&& 0xFFFE) >>> 1
        let s1 := { snes with cpu := { snes.cpu with
          P := { snes.cpu.P with c := decide (temp0 &&& 0x0001 ≠ 0) } } }
        let s2 ← write_word s1 instruction.data_addr temp
        let s3 := { s2 with cpu := { s2.cpu with
          P := { s2.cpu.P with
            z := decide (temp = 0), n := decide (temp &&& 0x8000 ≠ 0) } } }
        advance_pc s3 instruction
  | .STA =>
    if snes.cpu.P.m then do
      let s1 ← write_byte snes instruction.data_addr (snes.cpu.A &&& 0xFF)
      advance_pc s1 instruction
    else do
      let s1 ← write_word snes instruction.data_addr snes.cpu.A
      advance_pc s1 instruction
  | .STX =>
    if snes.cpu.P.x then do
      let s1 ← write_byte snes instruction.data_addr (snes.cpu.X &&& 0xFF)
      advance_pc s1 instruction
    else do
      let s1 ← write_word snes instruction.data_addr snes.cpu.X
      advance_pc s1 instruction
  | .STY =>
    if snes.cpu.P.x then do
      let s1 ← write_byte snes instruction.data_addr (snes.cpu.Y &&& 0xFF)
      advance_pc s1 instruction
    else do
      let s1 ← write_word snes instruction.data_addr snes.cpu.Y
      advance_pc s1 instruction
  | .STZ =>
    if snes.cpu.P.m then do
      let s1 ← write_byte snes instruction.data_addr 0
      advance_pc s1 instruction
    else do
      let s1 ← write_word snes instruction.data_addr 0
      advance_pc s1 instruction
  | .REP => do
    let flags ← read_byte snes instruction.data_addr
    let P0 := snes.cpu.P
    let P1 := if flags &&& 0b1 ≠ 0 then { P0 with c := false } else P0
    let P2 := if flags &&& 0b10 ≠ 0 then { P1 with z := false } else P1
    let P3 := if flags &&& 0b100 ≠ 0 then { P2 with i := false } else P2
    let P4 := if flags &&& 0b1000 ≠ 0 then { P3 with d := false } else P3
    let P5 := if flags &&& 0b10000 ≠ 0 then { P4 with x := false } else P4
    let P6 := if flags &&& 0b100000 ≠ 0 then { P5 with m := false } else P5
    let P7 := if flags &&& 0b1000000 ≠ 0 then { P6 with v := false } else P6
    let P8 := if flags &&& 0b10000000 ≠ 0 then { P7 with n := false } else P7
    advance_pc { snes with cpu := { snes.cpu with P := P8 } } instruction
  | .SEP => do
    let flags ← read_byte snes instruction.data_addr
    let P0 := snes.cpu.P
    let P1 := if flags &&& 0b1 ≠ 0 then { P0 with c := true } else P0
    let P2 := if flags &&& 0b10 ≠ 0 then { P1 with z := true } else P1
    let P3 := if flags &&& 0b100 ≠ 0 then { P2 with i := true } else P2
    let P4 := if flags &&& 0b1000 ≠ 0 then { P3 with d := true } else P3
    let P5 := if flags &&& 0b10000 ≠ 0 then { P4 with x := true } else P4
    let P6 := if flags &&& 0b100000 ≠ 0 then { P5 with m := true } else P5
    let P7 := if flags &&& 0b1000000 ≠ 0 then { P6 with v := true } else P6
    let P8 := if flags &&& 0b10000000 ≠ 0 then { P7 with n := true } else P7
    advance_pc { snes with cpu := { snes.cpu with P := P8 } } instruction
  | .ORA => do
    let w ← read_word snes instruction.data_addr
    advance_pc { snes with cpu := { snes.cpu with A := snes.cpu.A ||| w } } instruction
  | .LDA =>
    if snes.cpu.P.m then do
      let temp ← read_byte snes instruction.data_addr
      let s1 := { snes with cpu := { snes.cpu with
        A := (snes.cpu.A &&& 0xFF00) ||| temp,
        P := { snes.cpu.P with
          n := decide (temp &&& 0x80 ≠ 0), z := decide (temp = 0) } } }
      advance_pc s1 instruction
    else do
      let temp ← read_word snes instruction.data_addr
      let s1 := { snes with cpu := { snes.cpu with
        A := temp,
        P := { snes.cpu.P with
          n := decide (temp &&& 0x8000 ≠ 0), z := decide (temp = 0) } } }
      advance_pc s1 instruction
  | .LDX =>
    if snes.cpu.P.x then do
      let temp ← read_byte snes instruction.data_addr
      let s1 := { snes with cpu := { snes.cpu with
        X := (snes.cpu.X &&& 0xFF00) ||| temp,
        P := { snes.cpu.P with
          n := decide (temp &&& 0x80 ≠ 0), z := decide (temp = 0) } } }
      advance_pc s1 instruction
    else do
      let temp ← read_word snes instruction.data_addr
      let s1 := { snes with cpu := { snes.cpu with
        X := temp,
        P := { snes.cpu.P with
          n := decide (temp &&& 0x8000 ≠ 0), z := decide (temp = 0) } } }
      advance_pc s1 instruction
  | .LDY =>
    if snes.cpu.P.x then do
      let temp ← read_byte snes instruction.data_addr
      let s1 := { snes with cpu := { snes.cpu with
        Y := (snes.cpu.Y &&& 0xFF00) ||| temp,
        P := { snes.cpu.P with
          n := decide (temp &&& 0x80 ≠ 0), z := decide (temp = 0) } } }
      advance_pc s1 instruction
    else do
      let temp ← read_word snes instruction.data_addr
      let s1 := { snes with cpu := { snes.cpu with
        Y := temp,
        P := { snes.cpu.P with
          n := decide (temp &&& 0x8000 ≠ 0), z := decide (temp = 0) } } }
      advance_pc s1 instruction
  | .PHA =>
    if snes.cpu.P.m then do
      let s1 ← push_byte snes (snes.cpu.A &&& 0xFF)
      advance_pc s1 instruction
    else do
      let s1 ← push_word snes snes.cpu.A
      advance_pc s1 instruction
  | .PHK => do
    let s1 ← push_byte snes snes.cpu.K
    advance_pc s1 instruction
  | .PHB => do
    let s1 ← push_byte snes snes.cpu.DBR
    advance_pc s1 instruction
  | .PHD => do
    let s1 ← push_word snes snes.cpu.D
    advance_pc s1 instruction
  | .PHP => do
    let s1 ← push_byte snes snes.cpu.p_byte
    advance_pc s1 instruction
  | .PHX =>
    if snes.cpu.P.x then do
      let s1 ← push_byte snes (snes.cpu.X &&& 0xFF)
      advance_pc s1 instruction
    else do
      let s1 ← push_word snes snes.cpu.X
      advance_pc s1 instruction
  | .PHY =>
    if snes.cpu.P.x then do
      let s1 ← push_byte snes (snes.cpu.Y &&& 0xFF)
      advance_pc s1 instruction
    else do
      let s1 ← push_word snes snes.cpu.Y
      advance_pc s1 instruction
  | .PLA =>
    if snes.cpu.P.m then do
      let (temp, s1) ← pull_byte snes
      let s2 := { s1 with cpu := { s1.cpu with
        A := (s1.cpu.A &&& 0xFF00) ||| temp,
        P := { s1.cpu.P with
          n := decide (temp &&& 0x80 ≠ 0), z := decide (temp = 0) } } }
      advance_pc s2 instruction
    else do
      let (temp, s1) ← pull_word snes
      let s2 := { s1 with cpu := { s1.cpu with
        A := temp,
        P := { s1.cpu.P with
          n := decide (temp &&& 0x8000 ≠ 0), z := decide (temp = 0) } } }
      advance_pc s2 instruction
  | .PLP => do
    let (p, s1) ← pull_byte snes
    advance_pc { s1 with cpu := s1.cpu.set_p p } instruction
  | .PLB => do
    let (temp, s1) ← pull_byte snes
    let s2 := { s1 with cpu := { s1.cpu with
      DBR := temp,
      P := { s1.cpu.P with
        n := decide (temp &&& 0x80 ≠ 0), z := decide (temp = 0) } } }
    advance_pc s2 instruction
  | .PLD => do
    let (temp, s1) ← pull_word snes
    let s2 := { s1 with cpu := { s1.cpu with
      D := temp,
      P := { s1.cpu.P with
        n := decide (temp &&& 0x8000 ≠ 0), z := decide (temp = 0) } } }
    advance_pc s2 instruction
  | .PLX =>
    if snes.cpu.P.x then do
      let (temp, s1) ← pull_byte snes
      let s2 := { s1 with cpu := { s1.cpu with
        X := (s1.cpu.X &&& 0xFF00) ||| temp,
        P := { s1.cpu.P with
          n := decide (temp &&& 0x80 ≠ 0), z := decide (temp = 0) } } }
      advance_pc s2 instruction
    else do
      let (temp, s1) ← pull_word snes
      let s2 := { s1 with cpu := { s1.cpu with
        X := temp,
        P := { s1.cpu.P with
          n := decide (temp &&& 0x8000 ≠ 0), z := decide (temp = 0) } } }
      advance_pc s2 instruction
  | .PLY =>
    if snes.cpu.P.x then do
      let (temp, s1) ← pull_byte snes
      let s2 := { s1 with cpu := { s1.cpu with
        Y := (s1.cpu.Y &&& 0xFF00) ||| temp,
        P := { s1.cpu.P with
          n := decide (temp &&& 0x80 ≠ 0), z := decide (temp = 0) } } }
      advance_pc s2 instruction
    else do
      let (temp, s1) ← pull_word snes
      let s2 := { s1 with cpu := { s1.cpu with
        Y := temp,
        P := { s1.cpu.P with
          n := decide (temp &&& 0x8000 ≠ 0), z := decide (temp = 0) } } }
      advance_pc s2 instruction
  | .RTS => do
    let (pc, s1) ← pull_word snes
    .ok (.Return,
      { s1 with cpu := { s1.cpu with PC := (pc + 1) % 0x10000 } })
  | .RTL => do
    let (pc_l, s1) ← pull_byte snes
    let (pc_h, s2) ← pull_byte s1
    let s3 := { s2 with cpu := { s2.cpu with PC := (pc_h <<< 8) ||| pc_l } }
    let (k, s4) ← pull_byte s3
    advance_pc { s4 with cpu := { s4.cpu with K := k } } instruction
  | .TAX =>
    if snes.cpu.P.x then
      let temp := snes.cpu.A &&& 0xFF
      let s1 := { snes with cpu := { snes.cpu with
        X := (snes.cpu.X &&& 0xFF00) ||| temp,
        P := { snes.cpu.P with
          n := decide (temp &&& 0x80 ≠ 0), z := decide (temp = 0) } } }
      advance_pc s1 instruction
    else
      let s1 := { snes with cpu := { snes.cpu with
        X := snes.cpu.A,
        P := { snes.cpu.P with
          n := decide (snes.cpu.A &&& 0x8000 ≠ 0), z := decide (snes.cpu.A = 0) } } }
      advance_pc s1 instruction
  | .TAY =>
    if snes.cpu.P.x then
      let temp := snes.cpu.A &&& 0xFF
      let s1 := { snes with cpu := { snes.cpu with
        Y := (snes.cpu.Y &&& 0xFF00) ||| temp,
        P := { snes.cpu.P with
          n := decide (temp &&& 0x80 ≠ 0), z := decide (temp = 0) } } }
      advance_pc s1 instruction
    else
      let s1 := { snes with cpu := { snes.cpu with
        Y := snes.cpu.A,
        P := { snes.cpu.P with
          n := decide (snes.cpu.A &&& 0x8000 ≠ 0), z := decide (snes.cpu.A = 0) } } }
      advance_pc s1 instruction
  | .TSX =>
    if snes.cpu.P.x then
      let temp := snes.cpu.S &&& 0xFF
      let s1 := { snes with cpu := { snes.cpu with
        X := (snes.cpu.X &&& 0xFF00) ||| temp,
        P := { snes.cpu.P with
          n := decide (temp &&& 0x80 ≠ 0), z := decide (temp = 0) } } }
      advance_pc s1 instruction
    else
      let s1 := { snes with cpu := { snes.cpu with
        X := snes.cpu.S,
        P := { snes.cpu.P with
          n := decide (snes.cpu.S &&& 0x8000 ≠ 0), z := decide (snes.cpu.S = 0) } } }
      advance_pc s1 instruction
  | .TXS =>
    let s1 := { snes with cpu := { snes.cpu with
      S := snes.cpu.X,
      P := { snes.cpu.P with
        n := decide (snes.cpu.X &&& 0x8000 ≠ 0), z := decide (snes.cpu.X = 0) } } }
    advance_pc s1 instruction
  | .TXA =>
    if snes.cpu.P.m then
      let temp := snes.cpu.X &&& 0xFF
      let s1 := { snes with cpu := { snes.cpu with
        A := (snes.cpu.A &&& 0xFF00) ||| temp,
        P := { snes.cpu.P with
          n := decide (temp &&& 0x80 ≠ 0), z := decide (temp = 0) } } }
      advance_pc s1 instruction
    else
      let s1 := { snes with cpu := { snes.cpu with
        A := snes.cpu.X,
        P := { snes.cpu.P with
          n := decide (snes.cpu.X &&& 0x8000 ≠ 0), z := decide (snes.cpu.X = 0) } } }
      advance_pc s1 instruction
  | .TYA =>
    if snes.cpu.P.m then
      let temp := snes.cpu.Y &&& 0xFF
      let s1 := { snes with cpu := { snes.cpu with
        A := (snes.cpu.A &&& 0xFF00) ||| temp,
        P := { snes.cpu.P with
          n := decide (temp &&& 0x80 ≠ 0), z := decide (temp = 0) } } }
      advance_pc s1 instruction
    else
      let s1 := { snes with cpu := { snes.cpu with
        A := snes.cpu.Y,
        P := { snes.cpu.P with
          n := decide (snes.cpu.Y &&& 0x8000 ≠ 0), z := decide (snes.cpu.Y = 0) } } }
      advance_pc s1 instruction
  | .TCD =>
    let s1 := { snes with cpu := { snes.cpu with
      D := snes.cpu.A,
      P := { snes.cpu.P with
        n := decide (snes.cpu.A &&& 0x8000 ≠ 0), z := decide (snes.cpu.A = 0) } } }
    advance_pc s1 instruction
  | .TDC =>
    let s1 := { snes with cpu := { snes.cpu with
      A := snes.cpu.D,
      P := { snes.cpu.P with
        n := decide (snes.cpu.D &&& 0x8000 ≠ 0), z := decide (snes.cpu.D = 0) } } }
    advance_pc s1 instruction
  | .TRB =>
    if snes.cpu.P.m then do
      let val ← read_byte snes instruction.data_addr
      let result := val &&& ((snes.cpu.A &&& 0xFF) ^^^ 0xFF)
      let s1 ← write_byte snes instruction.data_addr result
      let s2 := { s1 with cpu := { s1.cpu with
        P := { s1.cpu.P with z := decide (result = 0) } } }
      advance_pc s2 instruction
    else do
      let val ← read_word snes instruction.data_addr
      let result := val &&& (snes.cpu.A ^^^ 0xFFFF)
      let s1 ← write_word snes instruction.data_addr result
      let s2 := { s1 with cpu := { s1.cpu with
        P := { s1.cpu.P with z := decide (result = 0) } } }
      advance_pc s2 instruction
  | .TSB =>
    if snes.cpu.P.m then do
      let val ← read_byte snes instruction.data_addr
      let result := val ||| (snes.cpu.A &&& 0xFF)
      let s1 ← write_byte snes instruction.data_addr result
      let s2 := { s1 with cpu := { s1.cpu with
        P := { s1.cpu.P with z := decide (result = 0) } } }
      advance_pc s2 instruction
    else do
      let val ← read_word snes instruction.data_addr
      let result := val ||| snes.cpu.A
      let s1 ← write_word snes instruction.data_addr result
      let s2 := { s1 with cpu := { s1.cpu with
        P := { s1.cpu.P with z := decide (result = 0) } } }
      advance_pc s2 instruction
  | .SBC =>
    if snes.cpu.P.d then .error .panicked
    else
      if snes.cpu.P.m then do
        let data ← read_byte snes instruction.data_addr
        let a_val := snes.cpu.A &&& 0xFF
        let carry := if snes.cpu.P.c then 1 else 0
        let result := (a_val + 0x200 - data - (1 - carry)) % 0x100
        let s1 := { snes with cpu := { snes.cpu with
          A := (snes.cpu.A &&& 0xFF00) ||| result,
          P := { snes.cpu.P with
            z := decide (result = 0),
            n := decide (result &&& 0x80 ≠ 0),
            c := decide (data + 1 ≤ a_val + carry),
            v := decide ((a_val ^^^ data) &&& 0x80 ≠ 0) &&
                 decide ((a_val ^^^ result) &&& 0x80 ≠ 0) } } }
        advance_pc s1 instruction
      else do
        let data ← read_word snes instruction.data_addr
        let carry := if snes.cpu.P.c then 1 else 0
        let result := (snes.cpu.A + 0x20000 - data - (1 - carry)) % 0x10000
        let s1 := { snes with cpu := { snes.cpu with
          A := result,
          P := { snes.cpu.P with
            z := decide (result = 0),
            n := decide (result &&& 0x8000 ≠ 0),
            c := decide (data + 1 ≤ snes.cpu.A + carry),
            v := decide ((snes.cpu.A ^^^ data) &&& 0x8000 ≠ 0) &&
                 decide ((snes.cpu.A ^^^ result) &&& 0x8000 ≠ 0) } } }
        advance_pc s1 instruction
  | .XBA =>
    let l := snes.cpu.A &&& 0xFF
    let h := (snes.cpu.A &&& 0xFF00) >>> 8
    advance_pc { snes with cpu := { snes.cpu with A := (l <<< 8) ||| h } } instruction
  | .XCE =>
    let temp := snes.cpu.P.c
    let P1 := { snes.cpu.P with c := snes.cpu.P.e, e := temp }
    let s1 :=
      if P1.e then
        { snes with cpu := { snes.cpu with
          P := { P1 with m := true, x := true },
          S := (snes.cpu.S &&& 0x00FF) ||| 0x0100 } }
      else
        { snes with cpu := { snes.cpu with P := P1 } }
    advance_pc s1 instruction
  | .NOP => advance_pc snes instruction
  | _ => .error .panicked

end Snes

namespace Snes

/-! ## debugger.rs: the static disassembler / simulator -/

/-- debugger.rs: `DebugState`: the `M`/`X`/`E` snapshot recorded per
line. -/
structure DebugState where
  x : Bool
  m : Bool
  e : Bool
deriving Repr, DecidableEq

/-- debugger.rs: `InstructionWrapper`: one disassembled instruction with
its recorded flag state, pre-fetched immediate data and branch links. -/
structure InstructionWrapper where
  location : Nat
  status : DebugState
  branchfrom : List Nat
  branchto : Option Nat
  data : Nat
  instruction : InstructionContext
deriving Repr, DecidableEq

/-- debugger.rs: `Flag`: the branch-arrow glyphs of a rendered line. -/
inductive DbgFlag where
  | BranchStart (loc : Nat)
  | BranchCont (loc : Nat)
  | BranchEnd (loc : Nat)
deriving Repr, DecidableEq

/-- debugger.rs: `DisassemblerLine`. -/
structure DisassemblerLine where
  location : Nat
  flags : List DbgFlag
  disassembled : InstructionWrapper
deriving Repr, DecidableEq

/-- debugger.rs: `DisassemblerContext`. -/
structure DisassemblerContext where
  lines : List DisassemblerLine
  branchtable : List Nat
  branchdepth : Nat
  startloc : Nat
  endloc : Nat
deriving Repr, DecidableEq

/-- debugger.rs: `DisassemblerError`: a memory/decode error propagated
with `?` (`Other`), or a `DisassemblyError` carrying the partial
instruction list, the machine snapshot and the failing step error.  The
`fuel` constructor is unreachable: the Rust loop runs at most
`maxlines + 2` iterations and the embedding is always called with that
much fuel. -/
inductive DbgError where
  | fromMem (e : MemError)
  | disassembly (instructions : List InstructionWrapper) (status : Console) (e : MemError)
  | fuel
deriving Repr, DecidableEq

/-- debugger.rs: the `AHashMap::insert` of the walk loop: the latest
insertion for a key shadows earlier ones. -/
def knownInsert (m : List (Nat × Nat)) (k v : Nat) : List (Nat × Nat) :=
  (k, v) :: m

/-- debugger.rs: `AHashMap` lookup (`contains_key` plus indexing). -/
def knownLookup (m : List (Nat × Nat)) (k : Nat) : Option Nat :=
  match m with
  | [] => none
  | (k0, v) :: rest => if k0 = k then some v else knownLookup rest k

/-- debugger.rs: the main `loop` of `debug_simulation` (lines 276-330),
as a fuel-indexed recursion.  `snes` is the original (borrowed) console:
the branch/jump/return/subroutine arm advances the simulated PC by the
length computed with the ORIGINAL `M`/`X` flags, exactly as the source
does; all other opcodes are executed on the simulated clone.  Returns
the instruction list, the known-locations map, the branch-table indices
and the final simulated console.  `cycle` counts iterations and indexes
the pushed instructions.  The cycle/stop checks run after the advance,
as in the source. -/
def debugWalkLoop (snes : Console) (start maxlines : Nat) :
    Nat → Console → Nat → List InstructionWrapper → List (Nat × Nat) → List Nat →
    Except DbgError (List InstructionWrapper × List (Nat × Nat) × List Nat × Console)
  | 0, _, _, _, _, _ => .error .fuel
  | fuel + 1, sim, cycle, instructions, known, branchinstr =>
    match read_byte sim sim.cpu.get_pc with
    | .error e => .error (.fromMem e)
    | .ok op =>
    match decode_instruction sim op sim.cpu.get_pc with
    | .error e => .error (.fromMem e)
    | .ok instr =>
    let isBr := instr.opcode.is_branch && decide (start < instr.data_addr)
    let branchinstr' := if isBr then branchinstr ++ [cycle] else branchinstr
    let branchto : Option Nat := if isBr then some instr.data_addr else none
    match (if instr.mode = AddrMode.Immediate
           then read_word sim instr.data_addr else .ok 0) with
    | .error e => .error (.fromMem e)
    | .ok dataVal =>
    let iw : InstructionWrapper :=
      { location := sim.cpu.get_pc,
        status := { x := sim.cpu.P.x, m := sim.cpu.P.m, e := sim.cpu.P.e },
        branchfrom := [],
        branchto := branchto,
        data := dataVal,
        instruction := instr }
    let instructions' := instructions ++ [iw]
    let known' := knownInsert known sim.cpu.get_pc cycle
    let step : Except DbgError Console :=
      if instr.opcode.is_branch || instr.opcode.is_jump ||
         instr.opcode.is_return || instr.opcode.is_subroutine then
        match instr.length snes.cpu.P.m snes.cpu.P.x with
        | .error e => .error (.fromMem e)
        | .ok len =>
          .ok { sim with cpu := { sim.cpu with PC := (sim.cpu.PC + len) % 0x10000 } }
      else
        match execute_instruction sim instr with
        | .error e => .error (.disassembly instructions' sim e)
        | .ok (_, sim2) => .ok sim2
    match step with
    | .error e => .error e
    | .ok sim' =>
      if maxlines < cycle then .ok (instructions', known', branchinstr', sim')
      else if instr.opcode = OpCode.BRK || instr.opcode.is_return ||
              instr.opcode.is_subroutine || instr.opcode = OpCode.BRA then
        .ok (instructions', known', branchinstr', sim')
      else
        debugWalkLoop snes start maxlines fuel sim' (cycle + 1)
          instructions' known' branchinstr'

/-- debugger.rs: the `'calcbranch` fix-up loop of `debug_simulation`
(lines 331-342): for every recorded branch index, reset `branchto` to
`None` when the target lies past the last line, otherwise push the
source location into the target line when the target is a recorded
instruction boundary.  The Rust `unwrap`/indexing panics are
`panicked`. -/
def calcbranch (instrs : List InstructionWrapper) (known : List (Nat × Nat)) :
    List Nat → Except MemError (List InstructionWrapper)
  | [] => .ok instrs
  | i :: rest =>
    match instrs.get? i with
    | none => .error .panicked
    | some iw =>
      match iw.branchto with
      | none => .error .panicked
      | some dest =>
        match instrs.getLast? with
        | none => .error .panicked
        | some lastiw =>
          if lastiw.location < dest then
            calcbranch (instrs.set i { iw with branchto := none }) known rest
          else
            match knownLookup known dest with
            | some branchtarget =>
              match instrs.get? branchtarget with
              | none => .error .panicked
              | some tw =>
                calcbranch
                  (instrs.set branchtarget
                    { tw with branchfrom := tw.branchfrom ++ [iw.location] })
                  known rest
            | none => calcbranch instrs known rest

/-- debugger.rs: `debug_simulation`: clone the machine, walk forward
decoding (and partially executing) instructions, then fix up recorded
branches and package the lines, the branch table and the start/end
locations. -/
def debug_simulation (snes : Console) (maxlines : Nat) :
    Except DbgError DisassemblerContext :=
  let start := snes.cpu.get_pc
  match debugWalkLoop snes start maxlines (maxlines + 2) snes 0 [] [] [] with
  | .error e => .error e
  | .ok (instructions, known, branchinstr, simEnd) =>
    match calcbranch instructions known branchinstr with
    | .error e => .error (.fromMem e)
    | .ok instructions' =>
      .ok { lines := instructions'.map fun x =>
              { location := x.location, flags := [], disassembled := x },
            branchtable := branchinstr,
            branchdepth := 0,
            startloc := start,
            endloc := simEnd.cpu.get_pc }

/-- Modelled from the spec: the claim-C9 invariant, stated over a
produced `DisassemblerContext`: every `branchtable` entry points at a
line whose `branchto` is `None` or the location of another line of the
window. -/
def branchtableResolved (ctx : DisassemblerContext) : Bool :=
  ctx.branchtable.all fun i =>
    match ctx.lines.get? i with
    | some line =>
      line.disassembled.branchto == none ||
      ctx.lines.any (fun l => some l.location == line.disassembled.branchto)
    | none => true

end Snes

namespace Snes

/-! ## Arithmetic bridge lemmas: bit masks and shifts as `div`/`mod` -/

theorem and_xFFFF (x : Nat) : x &&& 0xFFFF = x % 0x10000 := by
  have h := Nat.and_pow_two_sub_one_eq_mod x 16
  norm_num at h
  exact h

theorem and_xFF (x : Nat) : x &&& 0xFF = x % 0x100 := by
  have h := Nat.and_pow_two_sub_one_eq_mod x 8
  norm_num at h
  exact h

theorem and_x7F (x : Nat) : x &&& 0x7F = x % 0x80 := by
  have h := Nat.and_pow_two_sub_one_eq_mod x 7
  norm_num at h
  exact h

theorem and_x1FFFF (x : Nat) : x &&& 0x1FFFF = x % 0x20000 := by
  have h := Nat.and_pow_two_sub_one_eq_mod x 17
  norm_num at h
  exact h

theorem shiftRight16_eq (x : Nat) : x >>> 16 = x / 0x10000 := by
  have h := Nat.shiftRight_eq_div_pow x 16
  norm_num at h
  exact h

theorem and_xFF0000_shr16 (x : Nat) : (x &&& 0xFF0000) >>> 16 = x / 0x10000 % 0x100 := by
  have h1 : (x &&& 0xFF0000) >>> 16 = (x >>> 16) &&& 0xFF := by
    apply Nat.eq_of_testBit_eq
    intro i
    rw [Nat.testBit_shiftRight, Nat.testBit_and, Nat.testBit_and,
      Nat.testBit_shiftRight]
    congr 1
    rw [show (0xFF0000 : Nat) = 2 ^ 16 * 0xFF by norm_num,
      Nat.testBit_mul_pow_two]
    simp
  rw [h1, and_xFF, shiftRight16_eq]

theorem bank_lt_0x100 (x : Nat) : (x &&& 0xFF0000) >>> 16 < 0x100 := by
  rw [and_xFF0000_shr16]
  exact Nat.mod_lt _ (by norm_num)

theorem lor_shl8_eq_add (lo hi : Nat) (h : lo < 0x100) :
    lo ||| (hi <<< 8) = lo + (hi <<< 8) := by
  have hs : hi <<< 8 = 2 ^ 8 * hi := by
    rw [Nat.shiftLeft_eq]; ring
  rw [Nat.or_comm, hs]
  have := Nat.mul_add_lt_is_or (i := 8) (b := lo) (by norm_num at h ⊢; omega) hi
  omega

theorem or_x0100_shr8 (s : Nat) : ((s &&& 0xFF) ||| 0x0100) >>> 8 = 1 := by
  have ha : s &&& 0xFF < 0x100 := by
    have := Nat.and_le_right (n := s) (m := 0xFF)
    omega
  have h1 : (0x100 : Nat) ||| (s &&& 0xFF) = 0x100 + (s &&& 0xFF) := by
    have := Nat.mul_add_lt_is_or (i := 8) (b := s &&& 0xFF) (by norm_num; omega) 1
    norm_num at this
    omega
  rw [Nat.or_comm, h1]
  rw [Nat.shiftRight_eq_div_pow]
  norm_num
  omega

end Snes

namespace Snes

deriving instance DecidableEq for Except

/-! ## Concrete machines used by the claim theorems and witnesses -/

/-- A vector table with every vector at `0x8000`. -/
def testVectors : InterruptVectorTable :=
  { cop := 0x8000, brk := 0x8000, abort := 0x8000, nmi := 0x8000,
    irq := 0x8000, cop_emu := 0x8000, brk_emu := 0x8000, abort_emu := 0x8000,
    nmi_emu := 0x8000, reset := 0x8000, irq_emu := 0x8000 }

/-- A `LoROM` cartridge with the given declared size and image. -/
def loromCart (size : Nat) (data : List Nat) : Cartridge :=
  { header := { map_mode := .LoROM, rom_size := size, interrupt_vectors := testVectors },
    rom_data := data }

/-- A console from a cartridge, a RAM image and a CPU. -/
def mkConsole (cart : Cartridge) (ram : List Nat) (cpu : CPU) : Console :=
  { cpu := cpu, cartridge := cart, ram := ram, mmio := {}, dma := {} }

/-! ## C5: the addressing-mode decoder succeeds on all 256 opcode bytes -/

/-- C5: for every one of the 256 possible opcode bytes,
`decode_addressing_mode` returns an addressing mode successfully: the
irregular-opcode prefix table covers every byte that the regular
`cc`/`bbb` decode would send into an `Unknown opcode` error arm. -/
theorem c5_decode_addressing_mode_total (b : Fin 256) :
    (decode_addressing_mode b.val).isOk = true := by
  revert b
  decide

/-! ## C4: encoded length of Immediate-mode instructions -/

/-- C4 counterexample: the claim says the `Immediate` form of `COP` has
length 2, but `InstructionContext::length` gives 3 for `COP` (and for
`WDM`): neither opcode is special-cased and neither uses the `M` or `X`
flag. -/
theorem c4_counterexample :
    ¬ (InstructionContext.length
        { opcode := OpCode.COP, mode := AddrMode.Immediate,
          inst_addr := 0, data_addr := 0, dest_addr := none } true true = .ok 2) := by
  decide

/-- C4 as amended: for every opcode in `Immediate` form the encoded
length is 2 or 3; it is 2 for `REP`/`SEP`, `3 - m` for accumulator-class
(`uses_m`) operations, `3 - x` for index-class (`uses_x`) operations,
and exactly 3 for everything else -- including `PEA`, `PER`, `COP` and
`WDM`. -/
theorem c4_immediate_length (op : OpCode) (m x : Bool) :
    (InstructionContext.length
        { opcode := op, mode := AddrMode.Immediate,
          inst_addr := 0, data_addr := 0, dest_addr := none } m x =
      .ok (if op = OpCode.REP ∨ op = OpCode.SEP then 2
           else if op.uses_m then 3 - (if m then 1 else 0)
           else if op.uses_x then 3 - (if x then 1 else 0)
           else 3)) ∧
    (InstructionContext.length
        { opcode := op, mode := AddrMode.Immediate,
          inst_addr := 0, data_addr := 0, dest_addr := none } m x = .ok 2 ∨
     InstructionContext.length
        { opcode := op, mode := AddrMode.Immediate,
          inst_addr := 0, data_addr := 0, dest_addr := none } m x = .ok 3) := by
  cases op <;> cases m <;> cases x <;> decide

end Snes

namespace Snes

/-! ## C1: ADC carry versus overflow -/

/-- Modelled from the spec: the documented binary-mode `ADC` overflow
formula `V = (A XOR result) AND (M XOR result) AND signbit != 0`, with
the 16-bit sign bit, for `result = (A + M + C_in) mod 2^16`. -/
def adc_spec_V (a mval cin : Nat) : Bool :=
  let result := (a + mval + cin) % 0x10000
  decide ((a ^^^ result) &&& (mval ^^^ result) &&& 0x8000 ≠ 0)

/-- Modelled from the spec: `C` = unsigned overflow of `A + M + C_in`. -/
def adc_spec_C (a mval cin : Nat) : Bool :=
  decide (0x10000 ≤ a + mval + cin)

/-- The machine of the `ADC` failing input: native mode, binary mode,
`A = 0x0001`, carry clear, operand word `0xFFFF` at `$7E0000`. -/
def adcConsole : Console :=
  mkConsole (loromCart 0 []) [0xFF, 0xFF]
    { CPU.new with A := 1, P := { Flags.new with e := false } }

/-- The decoded `ADC` instruction at the failing input. -/
def adcCtx : InstructionContext :=
  { opcode := OpCode.ADC, mode := AddrMode.Immediate,
    inst_addr := 0x7E0000, data_addr := 0x7E0000, dest_addr := none }

/-- C1 (code bug), evaluated at the failing input `A = 0x0001`,
`M = 0xFFFF`, `C_in = 0`, `D = 0`: the code sets both `C` and `V` from
the same unsigned-overflow condition (`v = c = 1` here), whereas the
specified signed-overflow formula gives `V = 0` while `C = 1`.  The `V`
the claim (and the spec) documents therefore disagrees with the code,
which can never make `V` and `C` differ. -/
theorem c1_adc_v_equals_c :
    ((execute_instruction adcConsole adcCtx).map fun r =>
        (r.2.cpu.P.c, r.2.cpu.P.v)) = .ok (true, true) ∧
    adc_spec_C 0x0001 0xFFFF 0 = true ∧
    adc_spec_V 0x0001 0xFFFF 0 = false := by
  decide

/-! ## C2: every decodable instruction executes without panicking -/

/-- The machine of the C2 counterexample: the reset state (`E = 1`) with
an `LDA` immediate at `$000000`. -/
def c2Console : Console :=
  mkConsole (loromCart 0 []) [0xA9, 0x41, 0x00] CPU.new

/-- The decoded `LDA #` instruction of the C2 counterexample. -/
def c2LdaCtx : InstructionContext :=
  { opcode := OpCode.LDA, mode := AddrMode.Immediate,
    inst_addr := 0, data_addr := 1, dest_addr := none }

/-- C2 counterexample: `LDA #$41` (`0xA9`, decodable) executed from the
reset state (`E = 1`) reaches the `todo!()` arm of
`execute_instruction_emu`: execution panics instead of producing a
defined effect or a typed error. -/
theorem c2_counterexample :
    decode_instruction c2Console 0xA9 0 = .ok c2LdaCtx ∧
    execute_instruction c2Console c2LdaCtx = .error .panicked := by
  decide

/-- C2 as amended: in emulation mode (`E = 1`) only `BRK`, `JMP`, `SEI`,
`CLC` and `XCE` have implemented arms; executing any other opcode from
any state panics in the `todo!()` arm of `execute_instruction_emu`. -/
theorem c2_emu_unimplemented_panics (c : Console) (i : InstructionContext)
    (he : c.cpu.P.e = true)
    (hop : i.opcode ≠ OpCode.BRK ∧ i.opcode ≠ OpCode.JMP ∧
           i.opcode ≠ OpCode.SEI ∧ i.opcode ≠ OpCode.CLC ∧
           i.opcode ≠ OpCode.XCE) :
    execute_instruction c i = .error .panicked := by
  obtain ⟨h1, h2, h3, h4, h5⟩ := hop
  unfold execute_instruction
  rw [he]
  simp only [if_true]
  unfold execute_instruction_emu
  cases hco : i.opcode <;> simp_all

/-- The machine of the C2 witness: the reset state with an `INC A`. -/
def c2IncCtx : InstructionContext :=
  { opcode := OpCode.INC, mode := AddrMode.Accumulator,
    inst_addr := 0, data_addr := 0, dest_addr := none }

/-- C2 witness: the amended theorem applied to `INC A` in emulation
mode. -/
theorem c2_emu_unimplemented_panics_witness :
    execute_instruction c2Console c2IncCtx = .error .panicked :=
  c2_emu_unimplemented_panics c2Console c2IncCtx rfl
    (by refine ⟨?_, ?_, ?_, ?_, ?_⟩ <;> decide)

end Snes

namespace Snes

/-- Unfolding lemma for the `Except` do-notation: bind on a success. -/
theorem bind_ok_eq {ε α β : Type} (a : α) (f : α → Except ε β) :
    (Except.ok a >>= f) = f a := rfl

/-- Unfolding lemma for the `Except` do-notation: bind on an error. -/
theorem bind_error_eq {ε α β : Type} (e : ε) (f : α → Except ε β) :
    ((Except.error e : Except ε α) >>= f) = Except.error e := rfl

/-! ## C3: the emulation-mode invariant after any operation -/

/-- The machine of the C3 counterexample: the reset state (`E = 1`,
`M = 0`, `X = 0`, `S = 0x0000`) with a `CLC` at `$000000`. -/
def c3Console : Console :=
  mkConsole (loromCart 0 []) [0x18, 0x00, 0x00] CPU.new

/-- The decoded `CLC` of the C3 counterexample. -/
def c3ClcCtx : InstructionContext :=
  { opcode := OpCode.CLC, mode := AddrMode.Implied,
    inst_addr := 0, data_addr := 0, dest_addr := none }

/-- C3 counterexample: executing `CLC` (decodable, implemented in
emulation mode) from the reachable reset state completes normally and
leaves `E = 1` with `M = 0`, `X = 0` and `S[15:8] = 0x00`: the claimed
invariant `E=1 => M=1 and X=1 and S[15:8]=0x01` does not hold after the
operation.  (Neither `CPU::new` nor the emulation-mode arms establish
it; only the native-mode `XCE` entry into emulation mode forces the
flags.) -/
theorem c3_counterexample :
    decode_instruction c3Console 0x18 0 = .ok c3ClcCtx ∧
    ((execute_instruction c3Console c3ClcCtx).map fun r =>
        (r.2.cpu.P.e, r.2.cpu.P.m, r.2.cpu.P.x, r.2.cpu.S >>> 8))
      = .ok (true, false, false, 0) := by
  decide

/-- C3 as amended: the forcing the claim describes is exactly what the
native-mode `XCE` arm does when it switches INTO emulation mode: if a
native-mode `XCE` completes and leaves `E = 1`, the result has `M = 1`,
`X = 1` and `S[15:8] = 0x01`.  States entered any other way (the reset
state, or emulation-mode execution) need not satisfy the invariant. -/
theorem c3_xce_forces_widths (c : Console) (i : InstructionContext)
    (he : c.cpu.P.e = false) (hop : i.opcode = OpCode.XCE)
    (r : CPUExecutionResult × Console)
    (hr : execute_instruction c i = .ok r)
    (he' : r.2.cpu.P.e = true) :
    r.2.cpu.P.m = true ∧ r.2.cpu.P.x = true ∧ r.2.cpu.S >>> 8 = 1 := by
  obtain ⟨op, mode, ia, da, dest⟩ := i
  have hop' : op = OpCode.XCE := hop
  subst hop'
  unfold execute_instruction at hr
  rw [he] at hr
  simp only [Bool.false_eq_true, if_false] at hr
  cases hc : c.cpu.P.c
  · simp only [hc, Bool.false_eq_true, if_false] at hr
    unfold advance_pc at hr
    cases hlen : InstructionContext.length
        ⟨OpCode.XCE, mode, ia, da, dest⟩ c.cpu.P.m c.cpu.P.x <;> rw [hlen] at hr
    · simp only [bind_error_eq] at hr
      exact Except.noConfusion hr
    · simp only [bind_ok_eq, Except.ok.injEq] at hr
      subst hr
      exact absurd he' (by simp)
  · simp only [hc, if_true] at hr
    unfold advance_pc at hr
    cases hlen : InstructionContext.length
        ⟨OpCode.XCE, mode, ia, da, dest⟩ true true <;> rw [hlen] at hr
    · simp only [bind_error_eq] at hr
      exact Except.noConfusion hr
    · simp only [bind_ok_eq, Except.ok.injEq] at hr
      subst hr
      exact ⟨rfl, rfl, or_x0100_shr8 c.cpu.S⟩

end Snes

namespace Snes

/-- Helper: `vecIndex` on an in-bounds index. -/
theorem vecIndex_ok (v : List Nat) (i : Nat) (h : i < v.length) :
    vecIndex v i = .ok (v.get ⟨i, h⟩) := dif_pos h

/-! ## C6: `read_word` versus two `read_byte` calls -/

/-- The machine of the C6 counterexample (contents are irrelevant: the
address lies in the MMIO window). -/
def c6Console : Console := mkConsole (loromCart 0 []) [] CPU.new

/-- C6 counterexample: at `$004210` (`RDNMI`) and `$004211` both byte
reads succeed (the MMIO window of `read_byte` returns data), but
`read_word $004210` fails: the word read is dispatched once on the base
address and its MMIO arm has no success case.  So the word read does
NOT succeed exactly when both byte reads succeed. -/
theorem c6_counterexample :
    read_byte c6Console 0x004210 = .ok 0x00 ∧
    read_byte c6Console 0x004211 = .ok 0x00 ∧
    read_word c6Console 0x004210 = .error .unknownRegister := by
  decide

/-- C6 as amended: on WRAM-routed addresses (banks `$7E`-`$7F`, away
from the 128 KiB wrap boundary and in bounds of the RAM vector, with
byte-valued RAM), `read_word a` does return
`read_byte a | read_byte (a+1) << 8` with 24-bit address arithmetic;
but over the MMIO window the word read fails even though both byte
reads succeed, and across region boundaries the second byte of the word
comes from the base address region rather than from
`read_byte (a+1)`. -/
theorem c6_read_word_wram (c : Console) (a : Nat)
    (ha : a < 0x1000000)
    (hbank : 0x7E ≤ a / 0x10000 ∧ a / 0x10000 < 0x80)
    (hnw : a % 0x20000 ≠ 0x1FFFF)
    (hlen : a % 0x20000 + 1 < c.ram.length)
    (hbytes : ∀ v ∈ c.ram, v < 0x100) :
    read_word c a = (do
      let lo ← read_byte c a
      let hi ← read_byte c (a + 1)
      Except.ok (lo ||| (hi <<< 8))) := by
  have hB := and_xFF0000_shr16 a
  have hB1 := and_xFF0000_shr16 (a + 1)
  have hbank1 : 0x7E ≤ (a + 1) / 0x10000 ∧ (a + 1) / 0x10000 < 0x80 := by omega
  -- routing of the word read to WRAM
  have hC1 : ¬((((a &&& 0xFF0000) >>> 16) < 0x40 ∨
      (0x80 ≤ (a &&& 0xFF0000) >>> 16 ∧ (a &&& 0xFF0000) >>> 16 < 0xC0)) ∧
      (0x4200 ≤ a &&& 0xFFFF ∧ a &&& 0xFFFF < 0x4220)) := by
    rw [hB]; omega
  have hC2 : ¬((0x8000 ≤ a &&& 0xFFFF ∧
      ((a &&& 0xFF0000) >>> 16 < 0x40 ∨ 0x80 ≤ (a &&& 0xFF0000) >>> 16)) ∨
      0xC0 ≤ (a &&& 0xFF0000) >>> 16 ∨
      (0x40 ≤ (a &&& 0xFF0000) >>> 16 ∧ (a &&& 0xFF0000) >>> 16 < 0x7E)) := by
    rw [hB]; omega
  have hC3 : ((0x7E ≤ (a &&& 0xFF0000) >>> 16 ∧ (a &&& 0xFF0000) >>> 16 < 0x80) ∨
      (((a &&& 0xFF0000) >>> 16 < 0x40 ∨
        (0x80 ≤ (a &&& 0xFF0000) >>> 16 ∧ (a &&& 0xFF0000) >>> 16 < 0xC0)) ∧
       a &&& 0xFFFF < 0x2000)) := by
    rw [hB]; omega
  -- routing of the byte read at the base address
  have hD1 : ¬(((a &&& 0xFF0000) >>> 16) % 0x80 < 0x40 ∧
      (0x4200 ≤ a &&& 0xFFFF ∧ a &&& 0xFFFF < 0x4220)) := by
    rw [hB]; omega
  have hD3 : ((0x7E ≤ (a &&& 0xFF0000) >>> 16 ∧ (a &&& 0xFF0000) >>> 16 < 0x80) ∨
      (((a &&& 0xFF0000) >>> 16) % 0x80 < 0x40 ∧ a &&& 0xFFFF < 0x2000)) := by
    rw [hB]; omega
  -- routing of the byte read at the incremented address
  have hE1 : ¬((((a + 1) &&& 0xFF0000) >>> 16) % 0x80 < 0x40 ∧
      (0x4200 ≤ (a + 1) &&& 0xFFFF ∧ (a + 1) &&& 0xFFFF < 0x4220)) := by
    rw [hB1]; omega
  have hE2 : ¬((0x8000 ≤ (a + 1) &&& 0xFFFF ∧
      (((a + 1) &&& 0xFF0000) >>> 16 < 0x40 ∨ 0x80 ≤ ((a + 1) &&& 0xFF0000) >>> 16)) ∨
      0xC0 ≤ ((a + 1) &&& 0xFF0000) >>> 16 ∨
      (0x40 ≤ ((a + 1) &&& 0xFF0000) >>> 16 ∧ ((a + 1) &&& 0xFF0000) >>> 16 < 0x7E)) := by
    rw [hB1]; omega
  have hE3 : ((0x7E ≤ ((a + 1) &&& 0xFF0000) >>> 16 ∧ ((a + 1) &&& 0xFF0000) >>> 16 < 0x80) ∨
      ((((a + 1) &&& 0xFF0000) >>> 16) % 0x80 < 0x40 ∧ (a + 1) &&& 0xFFFF < 0x2000)) := by
    rw [hB1]; omega
  -- evaluate both sides down to WRAM accesses
  simp only [read_word, read_byte]
  rw [if_neg hC1, if_neg hC2, if_pos hC3, if_neg hD1, if_neg hC2, if_pos hD3,
    if_neg hE1, if_neg hE2, if_pos hE3]
  simp only [read_ram_word, read_ram_byte]
  rw [if_pos (Nat.and_le_right (n := a) (m := 0x200000)),
    if_pos (Nat.and_le_right (n := a) (m := 0x200000)),
    if_pos (Nat.and_le_right (n := a + 1) (m := 0x200000))]
  rw [and_x1FFFF a, and_x1FFFF (a + 1)]
  have hidx1 : (a + 1) % 0x20000 = a % 0x20000 + 1 := by omega
  rw [hidx1]
  rw [vecIndex_ok c.ram (a % 0x20000) (by omega),
    vecIndex_ok c.ram (a % 0x20000 + 1) hlen]
  simp only [bind_ok_eq]
  have hlo : c.ram.get ⟨a % 0x20000, by omega⟩ < 0x100 := by
    apply hbytes
    exact List.get_mem _ _ _
  rw [lor_shl8_eq_add _ _ hlo]

end Snes

namespace Snes

/-- The machine of the C6 witness: RAM `[0xCD, 0xAB]`. -/
def c6WitnessConsole : Console :=
  mkConsole (loromCart 0 []) [0xCD, 0xAB] CPU.new

/-- C6 witness: the amended theorem applied at `$7E0000`, reading the
little-endian word `0xABCD`. -/
theorem c6_read_word_wram_witness :
    read_word c6WitnessConsole 0x7E0000 = (do
      let lo ← read_byte c6WitnessConsole 0x7E0000
      let hi ← read_byte c6WitnessConsole 0x7E0001
      Except.ok (lo ||| (hi <<< 8))) :=
  c6_read_word_wram c6WitnessConsole 0x7E0000 (by decide) (by decide)
    (by decide) (by decide) (by decide)

end Snes

namespace Snes

/-! ## C7: writes to ROM-routed addresses are rejected -/

/-- The ROM-routing guard shared verbatim by the dispatch of
`read_byte`, `read_word`, `write_byte` and `write_word`. -/
def romRouted (addr : Nat) : Prop :=
  let bank := (addr &&& 0xFF0000) >>> 16
  let addr_word := addr &&& 0xFFFF
  (0x8000 ≤ addr_word ∧ (bank < 0x40 ∨ 0x80 ≤ bank)) ∨
  0xC0 ≤ bank ∨ (0x40 ≤ bank ∧ bank < 0x7E)

instance (a : Nat) : Decidable (romRouted a) := by
  unfold romRouted
  infer_instance

/-- C7: for every address the map decoder routes to ROM and any data,
`write_byte` and `write_word` both return the write-to-read-only error.
In the embedding an error result carries no new state, matching the
Rust arms, which return the error before touching WRAM, registers or
DMA latches: the machine state is left unchanged. -/
theorem c7_rom_writes_rejected (c : Console) (a v w : Nat) (h : romRouted a) :
    write_byte c a v = .error .writeToReadOnly ∧
    write_word c a w = .error .writeToReadOnly := by
  unfold romRouted at h
  have hC1 : ¬((((a &&& 0xFF0000) >>> 16) < 0x40 ∨
      (0x80 ≤ (a &&& 0xFF0000) >>> 16 ∧ (a &&& 0xFF0000) >>> 16 < 0xC0)) ∧
      (0x4200 ≤ a &&& 0xFFFF ∧ a &&& 0xFFFF < 0x4220)) := by
    omega
  have hC2 : ¬((((a &&& 0xFF0000) >>> 16) < 0x40 ∨
      (0x80 ≤ (a &&& 0xFF0000) >>> 16 ∧ (a &&& 0xFF0000) >>> 16 < 0xC0)) ∧
      (0x4300 ≤ a &&& 0xFFFF ∧ a &&& 0xFFFF < 0x4380)) := by
    omega
  have hC3 : ((0x8000 ≤ a &&& 0xFFFF ∧
      ((a &&& 0xFF0000) >>> 16 < 0x40 ∨ 0x80 ≤ (a &&& 0xFF0000) >>> 16)) ∨
      0xC0 ≤ (a &&& 0xFF0000) >>> 16 ∨
      (0x40 ≤ (a &&& 0xFF0000) >>> 16 ∧ (a &&& 0xFF0000) >>> 16 < 0x7E)) := by
    omega
  constructor
  · simp only [write_byte]
    rw [if_neg hC1, if_neg hC2, if_pos hC3]
  · simp only [write_word]
    rw [if_neg hC1, if_neg hC2, if_pos hC3]

/-- The machine of the C7 witness. -/
def c7Console : Console := mkConsole (loromCart 0x101 []) [0] CPU.new

/-- C7 witness: the theorem applied at the `LoROM` address `$008000`. -/
theorem c7_rom_writes_rejected_witness :
    write_byte c7Console 0x008000 0x42 = .error .writeToReadOnly ∧
    write_word c7Console 0x008000 0x1234 = .error .writeToReadOnly :=
  c7_rom_writes_rejected c7Console 0x008000 0x42 0x1234 (by decide)

end Snes

namespace Snes

/-! ## C8: the LoROM physical offset -/

/-- C8: for a `LoROM` cartridge and any ROM-routed logical address with
`off16 >= 0x8000`, the byte read indexes the ROM image at
`b * 0x8000 + (off16 - 0x8000)` with `b = bank & 0x7F`: the
`tempaddr - (page + 1) * 0x8000` computation of the source equals the
specified offset formula. -/
theorem c8_lorom_offset (c : Console) (a : Nat)
    (hmode : c.cartridge.header.map_mode = MapMode.LoROM)
    (ha : a < 0x1000000)
    (hoff : 0x8000 ≤ a &&& 0xFFFF)
    (hbank : (a &&& 0xFF0000) >>> 16 < 0x40 ∨ 0x80 ≤ (a &&& 0xFF0000) >>> 16)
    (hsize : ((a &&& 0xFF0000) >>> 16 &&& 0x7F) * 0x8000 + ((a &&& 0xFFFF) - 0x8000)
        < c.cartridge.header.rom_size)
    (hdata : ((a &&& 0xFF0000) >>> 16 &&& 0x7F) * 0x8000 + ((a &&& 0xFFFF) - 0x8000)
        < c.cartridge.rom_data.length) :
    read_byte c a =
      vecIndex c.cartridge.rom_data
        (((a &&& 0xFF0000) >>> 16 &&& 0x7F) * 0x8000 + ((a &&& 0xFFFF) - 0x8000)) := by
  obtain ⟨cpu, cart, ram, mm, dm⟩ := c
  obtain ⟨⟨mmode, rsize, iv⟩, rdata⟩ := cart
  simp only at hmode hsize hdata ⊢
  subst hmode
  simp only [read_byte, read_rom_byte]
  rw [and_xFF0000_shr16] at hbank hsize hdata ⊢
  rw [and_xFFFF] at hoff hsize hdata ⊢
  rw [and_x7F] at hsize hdata ⊢
  have hD1 : ¬((a / 0x10000 % 0x100) % 0x80 < 0x40 ∧
      (0x4200 ≤ a % 0x10000 ∧ a % 0x10000 < 0x4220)) := by
    omega
  have hD2 : ((0x8000 ≤ a % 0x10000 ∧
      (a / 0x10000 % 0x100 < 0x40 ∨ 0x80 ≤ a / 0x10000 % 0x100)) ∨
      0xC0 ≤ a / 0x10000 % 0x100 ∨
      (0x40 ≤ a / 0x10000 % 0x100 ∧ a / 0x10000 % 0x100 < 0x7E)) := by
    omega
  rw [if_neg hD1, if_pos hD2]
  by_cases hhigh : a / 0x10000 % 0x100 ≥ 0x80
  · rw [if_pos hhigh, if_pos (show a ≥ 0x800000 by omega)]
    have hidx : a - 0x800000 - (a / 0x10000 % 0x100 - 0x80 + 1) * 0x8000 =
        a / 0x10000 % 0x100 % 0x80 * 0x8000 + (a % 0x10000 - 0x8000) := by
      omega
    rw [hidx, if_pos hsize, if_pos hdata]
  · rw [if_neg hhigh, if_neg (show ¬ a ≥ 0x800000 by omega)]
    have hidx : a - (a / 0x10000 % 0x100 + 1) * 0x8000 =
        a / 0x10000 % 0x100 % 0x80 * 0x8000 + (a % 0x10000 - 0x8000) := by
      omega
    rw [hidx, if_pos hsize, if_pos hdata]

end Snes

namespace Snes

/-- The machine of the C8 witness: a `LoROM` cartridge with `0xEF` at
ROM offset `0x100` (scenario E of the spec and the `test_rom_read_lorom`
unit test). -/
def c8Console : Console :=
  mkConsole (loromCart 0x101 ((List.replicate 0x101 0).set 0x100 0xEF)) [] CPU.new

/-- C8 witness: reading `$008100` lands on ROM offset `0x100` and
returns `0xEF`. -/
theorem c8_lorom_offset_witness :
    read_byte c8Console 0x008100 = vecIndex c8Console.cartridge.rom_data 0x100 ∧
    vecIndex c8Console.cartridge.rom_data 0x100 = .ok 0xEF :=
  ⟨c8_lorom_offset c8Console 0x008100 rfl (by decide) (by decide) (by decide)
      (by decide) (by decide), by decide⟩

end Snes

namespace Snes

/-! ## C10: peek and read agree outside the MMIO window -/

/-- The machine of the C10 counterexample: a `LoROM` cartridge whose
header declares 64 KiB but whose image is empty (a truncated load). -/
def c10Console : Console := mkConsole (loromCart 0x10000 []) [] CPU.new

/-- C10 counterexample: at the ROM-routed address `$008000` of a
truncated cartridge, `read_byte` fails the ROM-vector length check it
alone carries and returns the out-of-bounds error, while `peek_byte`
(which has no such check) indexes past the end of the vector and
panics: the two reads do not return the same result on every ROM-routed
address. -/
theorem c10_counterexample :
    peek_byte c10Console 0x008000 = .error .panicked ∧
    read_byte c10Console 0x008000 = .error .outOfRomBounds ∧
    peek_byte c10Console 0x008000 ≠ read_byte c10Console 0x008000 := by
  decide

/-- The WRAM-routing guard of the byte dispatch (banks `$7E`-`$7F`, or
the low-8KiB mirror of the first quadrant of each half). -/
def wramRouted (addr : Nat) : Prop :=
  let bank := (addr &&& 0xFF0000) >>> 16
  let addr_word := addr &&& 0xFFFF
  (0x7E ≤ bank ∧ bank < 0x80) ∨ (bank % 0x80 < 0x40 ∧ addr_word < 0x2000)

instance (a : Nat) : Decidable (wramRouted a) := by
  unfold wramRouted
  infer_instance

/-- Helper: with an image at least as long as the declared ROM size,
the peek and read ROM byte readers agree (the only difference is the
extra length check of `read_rom_byte` in the `LoROM` arm). -/
theorem rom_byte_peek_eq_read (cart : Cartridge) (a : Nat)
    (h : cart.header.rom_size ≤ cart.rom_data.length) :
    peek_rom_byte cart a = read_rom_byte cart a := by
  unfold peek_rom_byte read_rom_byte
  cases hm : cart.header.map_mode
  case LoROM =>
    by_cases hs :
        (if a ≥ 0x800000 then a - 0x800000 else a) -
          ((if (a &&& 0xFF0000) >>> 16 ≥ 0x80
            then (a &&& 0xFF0000) >>> 16 - 0x80
            else (a &&& 0xFF0000) >>> 16) + 1) * 0x8000 < cart.header.rom_size
    · rw [if_pos hs, if_pos hs, if_pos (lt_of_lt_of_le hs h)]
    · rw [if_neg hs, if_neg hs]
  case HiROM => rfl
  case ExHiROM => rfl

/-- C10 as amended: `peek_word` and `read_word` agree on EVERY address
(their dispatch and region readers are textually identical); `peek_byte`
and `read_byte` agree on every WRAM-routed address, and on every
ROM-routed address provided the declared ROM size does not exceed the
loaded image (otherwise `read_byte` returns an out-of-bounds error where
`peek_byte` panics).  Inside the MMIO window they differ: `read_byte`
returns data for `$4210..$421F` while `peek_byte` always fails.  All
four functions are pure by construction (`&Console` in the source). -/
theorem c10_peek_read_agree (c : Console) (a : Nat) :
    peek_word c a = read_word c a ∧
    (wramRouted a → peek_byte c a = read_byte c a) ∧
    (romRouted a → c.cartridge.header.rom_size ≤ c.cartridge.rom_data.length →
      peek_byte c a = read_byte c a) := by
  refine ⟨?_, ?_, ?_⟩
  · unfold peek_word read_word peek_rom_word read_rom_word peek_ram_word read_ram_word
    rfl
  · intro h
    unfold wramRouted at h
    have hb := bank_lt_0x100 a
    have hC1 : ¬((((a &&& 0xFF0000) >>> 16) < 0x40 ∨
        (0x80 ≤ (a &&& 0xFF0000) >>> 16 ∧ (a &&& 0xFF0000) >>> 16 < 0xC0)) ∧
        (0x4200 ≤ a &&& 0xFFFF ∧ a &&& 0xFFFF < 0x4220)) := by
      omega
    have hD1 : ¬(((a &&& 0xFF0000) >>> 16) % 0x80 < 0x40 ∧
        (0x4200 ≤ a &&& 0xFFFF ∧ a &&& 0xFFFF < 0x4220)) := by
      omega
    have hC2 : ¬((0x8000 ≤ a &&& 0xFFFF ∧
        ((a &&& 0xFF0000) >>> 16 < 0x40 ∨ 0x80 ≤ (a &&& 0xFF0000) >>> 16)) ∨
        0xC0 ≤ (a &&& 0xFF0000) >>> 16 ∨
        (0x40 ≤ (a &&& 0xFF0000) >>> 16 ∧ (a &&& 0xFF0000) >>> 16 < 0x7E)) := by
      omega
    have hC3 : ((0x7E ≤ (a &&& 0xFF0000) >>> 16 ∧ (a &&& 0xFF0000) >>> 16 < 0x80) ∨
        (((a &&& 0xFF0000) >>> 16 < 0x40 ∨
          (0x80 ≤ (a &&& 0xFF0000) >>> 16 ∧ (a &&& 0xFF0000) >>> 16 < 0xC0)) ∧
         a &&& 0xFFFF < 0x2000)) := by
      omega
    have hD3 : ((0x7E ≤ (a &&& 0xFF0000) >>> 16 ∧ (a &&& 0xFF0000) >>> 16 < 0x80) ∨
        (((a &&& 0xFF0000) >>> 16) % 0x80 < 0x40 ∧ a &&& 0xFFFF < 0x2000)) := by
      omega
    simp only [peek_byte, read_byte]
    rw [if_neg hC1, if_neg hC2, if_pos hC3, if_neg hD1, if_neg hC2, if_pos hD3]
    unfold peek_ram_byte read_ram_byte
    rfl
  · intro h hlen
    unfold romRouted at h
    have hb := bank_lt_0x100 a
    have hC1 : ¬((((a &&& 0xFF0000) >>> 16) < 0x40 ∨
        (0x80 ≤ (a &&& 0xFF0000) >>> 16 ∧ (a &&& 0xFF0000) >>> 16 < 0xC0)) ∧
        (0x4200 ≤ a &&& 0xFFFF ∧ a &&& 0xFFFF < 0x4220)) := by
      omega
    have hD1 : ¬(((a &&& 0xFF0000) >>> 16) % 0x80 < 0x40 ∧
        (0x4200 ≤ a &&& 0xFFFF ∧ a &&& 0xFFFF < 0x4220)) := by
      omega
    simp only [peek_byte, read_byte]
    rw [if_neg hC1, if_neg hD1, if_pos h, if_pos h]
    exact rom_byte_peek_eq_read c.cartridge a hlen

/-- The machine of the C10 witness: RAM `[0x55]`, a well-sized
cartridge. -/
def c10WitnessConsole : Console :=
  mkConsole (loromCart 0x101 ((List.replicate 0x101 0).set 0x100 0x77)) [0x55] CPU.new

/-- C10 witness: the amended theorem applied at the WRAM address
`$7E0000` and (for the word part) at the same address. -/
theorem c10_peek_read_agree_witness :
    peek_word c10WitnessConsole 0x7E0000 = read_word c10WitnessConsole 0x7E0000 ∧
    peek_byte c10WitnessConsole 0x7E0000 = read_byte c10WitnessConsole 0x7E0000 ∧
    peek_byte c10WitnessConsole 0x008100 = read_byte c10WitnessConsole 0x008100 :=
  ⟨(c10_peek_read_agree c10WitnessConsole 0x7E0000).1,
   (c10_peek_read_agree c10WitnessConsole 0x7E0000).2.1 (by decide),
   (c10_peek_read_agree c10WitnessConsole 0x008100).2.2 (by decide) (by decide)⟩

end Snes

namespace Snes

/-! ## C9: branch targets recorded by the disassembler -/

/-- The `instructions.last().unwrap().location` of the fix-up loop
(0 for an empty list, where the source would panic). -/
def lastLocation (l : List InstructionWrapper) : Nat :=
  (l.getLast?.map InstructionWrapper.location).getD 0

/-- Two wrapper lists with the same locations at every index. -/
def LocsEq (l1 l2 : List InstructionWrapper) : Prop :=
  ∀ j, (l1.get? j).map InstructionWrapper.location =
       (l2.get? j).map InstructionWrapper.location

/-- Pointwise: the second list's `branchto` entries are those of the
first, except possibly reset to `none`. -/
def BranchtoMono (l1 l2 : List InstructionWrapper) : Prop :=
  ∀ j iw2, l2.get? j = some iw2 →
    ∃ iw1, l1.get? j = some iw1 ∧
      (iw2.branchto = iw1.branchto ∨ iw2.branchto = none)

theorem locsEq_refl (l : List InstructionWrapper) : LocsEq l l :=
  fun _ => rfl

theorem locsEq_trans {l1 l2 l3 : List InstructionWrapper}
    (h1 : LocsEq l1 l2) (h2 : LocsEq l2 l3) : LocsEq l1 l3 :=
  fun j => (h1 j).trans (h2 j)

theorem branchtoMono_refl (l : List InstructionWrapper) : BranchtoMono l l :=
  fun _ iw h => ⟨iw, h, Or.inl rfl⟩

theorem branchtoMono_trans {l1 l2 l3 : List InstructionWrapper}
    (h1 : BranchtoMono l1 l2) (h2 : BranchtoMono l2 l3) : BranchtoMono l1 l3 := by
  intro j iw3 h3
  obtain ⟨iw2, hg2, hb2⟩ := h2 j iw3 h3
  obtain ⟨iw1, hg1, hb1⟩ := h1 j iw2 hg2
  refine ⟨iw1, hg1, ?_⟩
  rcases hb2 with hb2 | hb2
  · rcases hb1 with hb1 | hb1
    · exact Or.inl (hb2.trans hb1)
    · exact Or.inr (hb2.trans hb1)
  · exact Or.inr hb2

theorem set_locsEq (l : List InstructionWrapper) (k : Nat)
    (w w' : InstructionWrapper) (hget : l.get? k = some w)
    (hloc : w'.location = w.location) : LocsEq l (l.set k w') := by
  intro j
  rw [List.get?_eq_getElem?, List.get?_eq_getElem?]
  by_cases hjk : k = j
  · subst hjk
    have hk : k < l.length := by
      rw [List.get?_eq_getElem?] at hget
      exact (List.getElem?_eq_some.mp hget).1
    rw [List.getElem?_set_self hk]
    rw [List.get?_eq_getElem?] at hget
    rw [hget]
    simp [hloc]
  · rw [List.getElem?_set_ne hjk]

theorem set_branchtoMono (l : List InstructionWrapper) (k : Nat)
    (w w' : InstructionWrapper) (hget : l.get? k = some w)
    (hbt : w'.branchto = w.branchto ∨ w'.branchto = none) :
    BranchtoMono l (l.set k w') := by
  intro j iw2 h2
  rw [List.get?_eq_getElem?] at h2
  by_cases hjk : k = j
  · subst hjk
    have hk : k < l.length := by
      rw [List.get?_eq_getElem?] at hget
      exact (List.getElem?_eq_some.mp hget).1
    rw [List.getElem?_set_self hk] at h2
    cases h2
    exact ⟨w, hget, hbt⟩
  · rw [List.getElem?_set_ne hjk] at h2
    rw [← List.get?_eq_getElem?] at h2
    exact ⟨iw2, h2, Or.inl rfl⟩

theorem locsEq_length {l1 l2 : List InstructionWrapper} (h : LocsEq l1 l2) :
    l1.length = l2.length := by
  by_contra hne
  rcases Nat.lt_or_ge l1.length l2.length with hlt | hge
  · have h2 := h l1.length
    rw [List.get?_eq_getElem?, List.get?_eq_getElem?] at h2
    rw [List.getElem?_eq_none (Nat.le_refl _)] at h2
    rw [List.getElem?_eq_getElem hlt] at h2
    exact Option.noConfusion h2
  · have hlt : l2.length < l1.length := by omega
    have h2 := h l2.length
    rw [List.get?_eq_getElem?, List.get?_eq_getElem?] at h2
    rw [List.getElem?_eq_none (Nat.le_refl _)] at h2
    rw [List.getElem?_eq_getElem hlt] at h2
    exact Option.noConfusion h2

theorem locsEq_lastLocation {l1 l2 : List InstructionWrapper}
    (h : LocsEq l1 l2) : lastLocation l1 = lastLocation l2 := by
  have hlen := locsEq_length h
  unfold lastLocation
  rw [List.getLast?_eq_getElem?, List.getLast?_eq_getElem?, hlen]
  have h2 := h (l2.length - 1)
  rw [List.get?_eq_getElem?, List.get?_eq_getElem?] at h2
  rw [h2]

end Snes

namespace Snes

/-- Inversion of one step of the fix-up loop: a successful
`calcbranch` on `i :: rest` passes through an intermediate list that
agrees with the input on locations and can only reset `branchto`
fields, and whose entry at `i` is either reset to `none` (target past
the window) or keeps its in-window target. -/
theorem calcbranch_cons_inv (instrs : List InstructionWrapper)
    (known : List (Nat × Nat)) (i : Nat) (rest : List Nat)
    (res : List InstructionWrapper)
    (h : calcbranch instrs known (i :: rest) = .ok res) :
    ∃ iw dest lastiw instrs',
      instrs.get? i = some iw ∧ iw.branchto = some dest ∧
      instrs.getLast? = some lastiw ∧
      calcbranch instrs' known rest = .ok res ∧
      LocsEq instrs instrs' ∧ BranchtoMono instrs instrs' ∧
      (∃ iw', instrs'.get? i = some iw' ∧
        (iw'.branchto = none ∨
         (iw'.branchto = some dest ∧ dest ≤ lastiw.location))) := by
  rw [calcbranch] at h
  split at h
  · exact Except.noConfusion h
  rename_i iw hgi
  split at h
  · exact Except.noConfusion h
  rename_i dest hbt
  split at h
  · exact Except.noConfusion h
  rename_i lastiw hlast
  split at h
  · rename_i hgt
    refine ⟨iw, dest, lastiw, instrs.set i { iw with branchto := none },
      hgi, hbt, hlast, h, ?_, ?_, ?_⟩
    · exact set_locsEq instrs i iw _ hgi rfl
    · exact set_branchtoMono instrs i iw _ hgi (Or.inr rfl)
    · refine ⟨{ iw with branchto := none }, ?_, Or.inl rfl⟩
      have hk : i < instrs.length := by
        rw [List.get?_eq_getElem?] at hgi
        exact (List.getElem?_eq_some.mp hgi).1
      rw [List.get?_eq_getElem?, List.getElem?_set_self hk]
  rename_i hgt
  split at h
  · rename_i branchtarget hlk
    split at h
    · exact Except.noConfusion h
    rename_i tw hgt2
    refine ⟨iw, dest, lastiw,
      instrs.set branchtarget
        { tw with branchfrom := tw.branchfrom ++ [iw.location] },
      hgi, hbt, hlast, h, ?_, ?_, ?_⟩
    · exact set_locsEq instrs branchtarget tw _ hgt2 rfl
    · exact set_branchtoMono instrs branchtarget tw _ hgt2 (Or.inl rfl)
    · have hk : branchtarget < instrs.length := by
        rw [List.get?_eq_getElem?] at hgt2
        exact (List.getElem?_eq_some.mp hgt2).1
      by_cases hbi : branchtarget = i
      · subst hbi
        have htw : tw = iw := by
          rw [hgi] at hgt2
          exact (Option.some.inj hgt2).symm
        subst htw
        refine ⟨{ tw with branchfrom := tw.branchfrom ++ [tw.location] }, ?_, ?_⟩
        · rw [List.get?_eq_getElem?, List.getElem?_set_self hk]
        · exact Or.inr ⟨hbt, by omega⟩
      · refine ⟨iw, ?_, Or.inr ⟨hbt, by omega⟩⟩
        rw [List.get?_eq_getElem?, List.getElem?_set_ne hbi,
          ← List.get?_eq_getElem?]
        exact hgi
  · rename_i hlk
    exact ⟨iw, dest, lastiw, instrs, hgi, hbt, hlast, h,
      locsEq_refl instrs, branchtoMono_refl instrs,
      iw, hgi, Or.inr ⟨hbt, by omega⟩⟩

end Snes

namespace Snes

/-- A successful fix-up run only rewrites `branchfrom` fields and
resets `branchto` fields: locations are preserved and every surviving
`branchto` was already present. -/
theorem calcbranch_mono (instrs : List InstructionWrapper)
    (known : List (Nat × Nat)) (bl : List Nat)
    (res : List InstructionWrapper)
    (h : calcbranch instrs known bl = .ok res) :
    LocsEq instrs res ∧ BranchtoMono instrs res := by
  induction bl generalizing instrs with
  | nil =>
    rw [calcbranch] at h
    cases h
    exact ⟨locsEq_refl _, branchtoMono_refl _⟩
  | cons i rest ih =>
    obtain ⟨iw, dest, lastiw, instrs2, _, _, _, h2, hle, hbm, _⟩ :=
      calcbranch_cons_inv instrs known i rest res h
    obtain ⟨hle2, hbm2⟩ := ih instrs2 h2
    exact ⟨locsEq_trans hle hle2, branchtoMono_trans hbm hbm2⟩

end Snes

namespace Snes

/-- After a successful fix-up run, every `branchtable` index whose
entry survives has a `branchto` that is `none` or bounded by the last
location of the result. -/
theorem calcbranch_bounded (instrs : List InstructionWrapper)
    (known : List (Nat × Nat)) (bl : List Nat)
    (res : List InstructionWrapper)
    (h : calcbranch instrs known bl = .ok res) :
    ∀ i, i ∈ bl → ∀ iw, res.get? i = some iw →
      iw.branchto = none ∨
      ∃ t, iw.branchto = some t ∧ t ≤ lastLocation res := by
  induction bl generalizing instrs with
  | nil =>
    intro i hi
    exact absurd hi (List.not_mem_nil i)
  | cons j rest ih =>
    intro i hi iw hiw
    obtain ⟨iw0, dest, lastiw, instrs2, hg0, hbt0, hlast0, h2, hle, hbm,
      iw1, hg1, hprop⟩ := calcbranch_cons_inv instrs known j rest res h
    rcases List.mem_cons.mp hi with hij | hirest
    · subst hij
      obtain ⟨hle2, hbm2⟩ := calcbranch_mono instrs2 known rest res h2
      obtain ⟨iw1b, hg1b, hb⟩ := hbm2 i iw hiw
      rw [hg1] at hg1b
      cases hg1b
      rcases hb with hb | hb
      · rcases hprop with hn | ⟨hd, hdle⟩
        · exact Or.inl (hb.trans hn)
        · refine Or.inr ⟨dest, hb.trans hd, ?_⟩
          have hll : lastLocation instrs = lastiw.location := by
            unfold lastLocation
            rw [hlast0]
            rfl
          have hlr := locsEq_lastLocation (locsEq_trans hle hle2)
          omega
      · exact Or.inl hb
    · exact ih instrs2 h2 i hirest iw hiw

end Snes

namespace Snes

/-- C9 (amended): the claim promises that after `debug_simulation`
completes its fix-up pass, every `branchtable` entry refers to a line
whose branch target resolves to another disassembled line or has been
reset to `None`.  The code only guarantees the weaker property proved
here: the surviving target lies no further than the last line's
location (a target inside the window that falls mid-instruction is
kept but matches no line). -/
theorem c9_branchtable_targets_in_window (snes : Console) (maxlines : Nat)
    (ctx : DisassemblerContext)
    (h : debug_simulation snes maxlines = .ok ctx) :
    ∀ i, i ∈ ctx.branchtable → ∀ line, ctx.lines.get? i = some line →
      line.disassembled.branchto = none ∨
      ∃ t, line.disassembled.branchto = some t ∧
        t ≤ ((ctx.lines.getLast?.map DisassemblerLine.location).getD 0) := by
  simp only [debug_simulation] at h
  split at h
  · exact Except.noConfusion h
  rename_i instructions known1 branchinstr simEnd hwalk
  split at h
  · exact Except.noConfusion h
  rename_i instructions2 hcal
  cases h
  intro i hi line hline
  rw [List.get?_eq_getElem?, List.getElem?_map] at hline
  obtain ⟨iw, hgi, hf⟩ := Option.map_eq_some'.mp hline
  have hbound := calcbranch_bounded instructions known1 branchinstr
    instructions2 hcal i hi iw (by rw [List.get?_eq_getElem?]; exact hgi)
  have hdl : line.disassembled = iw := by
    rw [← hf]
  have hlast : ((List.map
      (fun x => ({ location := x.location, flags := [], disassembled := x } : DisassemblerLine))
      instructions2).getLast?.map
        DisassemblerLine.location).getD 0 = lastLocation instructions2 := by
    rw [List.getLast?_map, Option.map_map, lastLocation]
    rfl
  rw [hdl, hlast]
  exact hbound

end Snes

namespace Snes

/-- The C9 machine: a taken `BNE` into the middle of the following
`LDA #` instruction, then `BRK`, run in native mode with 8-bit
registers. -/
def c9Console : Console :=
  mkConsole (loromCart 0 [])
    (((((List.replicate 0x200 0).set 0x10 0xD0).set 0x11 0x01).set 0x12 0xA9).set 0x13 0x41)
    { CPU.new with K := 0x7E, PC := 0x10, S := 0x1FF, P := { Flags.new with e := false, m := true, x := true } }

/-- C9 counterexample: the branch target `0x7E0013` lies inside the
window (below the last line `0x7E0014`) but in the middle of the `LDA`
instruction, so the fix-up loop keeps it as `Some` yet no line of the
window carries that location: the entry resolves to no line, against
the claim. -/
theorem c9_counterexample :
    (debug_simulation c9Console 10).map (fun ctx =>
      (branchtableResolved ctx, ctx.branchtable,
       ctx.lines.map (fun l => l.location),
       ctx.lines.map (fun l => l.disassembled.branchto))) =
    .ok (false, [0], [0x7E0010, 0x7E0012, 0x7E0014],
         [some 0x7E0013, none, none]) := by
  decide

/-- The first line produced on the C9 machine: the `BNE` whose target
survives fix-up. -/
def c9Line0 : DisassemblerLine :=
  { location := 0x7E0010, flags := [],
    disassembled :=
      { location := 0x7E0010, status := { x := true, m := true, e := false },
        branchfrom := [], branchto := some 0x7E0013, data := 0,
        instruction :=
          { opcode := OpCode.BNE, mode := AddrMode.RelativeByte,
            inst_addr := 0x7E0010, data_addr := 0x7E0013, dest_addr := none } } }

/-- The full disassembler context produced on the C9 machine. -/
def c9Ctx : DisassemblerContext :=
  { lines :=
      [c9Line0,
       { location := 0x7E0012, flags := [],
         disassembled :=
           { location := 0x7E0012, status := { x := true, m := true, e := false },
             branchfrom := [], branchto := none, data := 0x41,
             instruction :=
               { opcode := OpCode.LDA, mode := AddrMode.Immediate,
                 inst_addr := 0x7E0012, data_addr := 0x7E0013, dest_addr := none } } },
       { location := 0x7E0014, flags := [],
         disassembled :=
           { location := 0x7E0014, status := { x := true, m := true, e := false },
             branchfrom := [], branchto := none, data := 0,
             instruction :=
               { opcode := OpCode.BRK, mode := AddrMode.Implied,
                 inst_addr := 0x7E0014, data_addr := 0x7E0014, dest_addr := none } } }],
    branchtable := [0], branchdepth := 0,
    startloc := 0x7E0010, endloc := 0x8000 }

/-- C9 witness: the amended bound instantiated on the C9 machine. -/
theorem c9_branchtable_targets_in_window_witness :
    0 ∈ c9Ctx.branchtable ∧ c9Ctx.lines.get? 0 = some c9Line0 ∧
    (c9Line0.disassembled.branchto = none ∨
     ∃ t, c9Line0.disassembled.branchto = some t ∧
       t ≤ ((c9Ctx.lines.getLast?.map DisassemblerLine.location).getD 0)) :=
  ⟨by decide, by decide,
   c9_branchtable_targets_in_window c9Console 10 c9Ctx (by decide)
     0 (by decide) c9Line0 (by decide)⟩

end Snes

namespace Snes

/-- The C3 witness machine: native mode (`E = 0`) with carry set, both
width flags clear and `S = $FFDD`, about to run `XCE`. -/
def xceConsole : Console :=
  mkConsole (loromCart 0 []) []
    { CPU.new with S := 0xFFDD, P := { Flags.new with e := false, c := true, m := false, x := false } }

/-- The decoded `XCE` instruction of the C3 witness. -/
def xceCtx : InstructionContext :=
  { opcode := OpCode.XCE, mode := AddrMode.Implied, inst_addr := 0, data_addr := 0, dest_addr := none }

/-- The state the C3 witness machine reaches: emulation mode entered,
`M = X = 1`, `S = $01DD`. -/
def xceResult : CPUExecutionResult × Console :=
  (CPUExecutionResult.Normal,
   mkConsole (loromCart 0 []) []
     { CPU.new with S := 0x1DD, PC := 1, P := { Flags.new with e := true, c := false, m := true, x := true } })

/-- C3 witness: the amended theorem applied to the `XCE` run of
`xceConsole`. -/
theorem c3_xce_forces_widths_witness :
    xceConsole.cpu.P.e = false ∧ xceCtx.opcode = OpCode.XCE ∧
    execute_instruction xceConsole xceCtx = .ok xceResult ∧
    xceResult.2.cpu.P.e = true ∧
    (xceResult.2.cpu.P.m = true ∧ xceResult.2.cpu.P.x = true ∧
     xceResult.2.cpu.S >>> 8 = 1) :=
  ⟨rfl, rfl, by decide, rfl,
   c3_xce_forces_widths xceConsole xceCtx rfl rfl xceResult (by decide) rfl⟩

end Snes
